import Mathlib

/-!
# face-dash worker: stream lifecycle manager

A shallow embedding of `src/worker/main.go` (the `StreamManager` and its
`CameraStream` sessions) together with theorems about its start/stop
semantics, the capture-open retry loop, alert throttling, publisher
teardown and the frame loop.

Modelling conventions

* Every Go call that runs under `streamMutex` is one atomic function on
  `State`.  Goroutines that a call spawns are recorded as events; the body
  of the frame-loop goroutine is the function `processStream`, which is
  run explicitly.
* `*CameraStream` pointers are addresses into `State.heap`; the registry
  `streams` maps a camera id to such an address, so a session object
  survives its removal from the registry exactly as in Go.
* External collaborators (gocv capture, ffmpeg, clock, snapshot store) are
  oracles passed in as environment records; every call made to them is
  appended to `State.trace` in program order.  Log output is not modelled.
-/

namespace FaceDash

/-! ## Data model -/

/-- Wall-clock instants, in nanoseconds since Go's zero `time.Time`. -/
abbrev Time := Int

/-- Go `time.Duration`: a signed 64-bit count of nanoseconds. -/
abbrev Duration := Int

/-- Worker configuration (`type Config struct`). -/
structure Config where
  BackendURL : String
  MediaMTXURL : String
  WorkerPort : Int
  MaxStreams : Int
  FaceCascade : String
  StoragePath : String
  deriving DecidableEq, Repr, Inhabited

/-- Camera configuration (`type Camera struct`). -/
structure Camera where
  ID : String
  Name : String
  RTSPURL : String
  Location : String
  Enabled : Bool
  deriving DecidableEq, Repr, Inhabited

/-- Face detection alert (`type Alert struct`); `Metadata` is spelled out
as its three keys. -/
structure Alert where
  CameraID : String
  DetectedAt : Time
  Description : String
  SnapshotURL : String
  face_count : Nat
  camera_name : String
  location : String
  deriving DecidableEq, Repr, Inhabited

/-- A `*gocv.VideoCapture` handle: its identity and what `IsOpened()`
reports. -/
structure VideoCapture where
  id : Nat
  opened : Bool
  deriving DecidableEq, Repr, Inhabited

/-- An active camera stream (`type CameraStream struct`).  `Context` is the
identity of the cancellation token shared by `Context` and `Cancel`;
`ffmpegCmd` and `ffmpegIn` are nil-able handles. -/
structure CameraStream where
  Camera : Camera
  Capture : Option VideoCapture
  Context : Nat
  IsRunning : Bool
  FrameCount : Int
  StartTime : Time
  LastAlert : Time
  ffmpegCmd : Option Nat
  ffmpegIn : Option Nat
  publishURL : String
  published : Bool
  deriving DecidableEq, Repr, Inhabited

/-- Calls made to the external collaborators, in program order. -/
inductive Event where
  /-- `cancel()` of the token with the given identity. -/
  | ctxCancel (ctx : Nat)
  /-- One call of `gocv.OpenVideoCapture(url)`; `handle` is the pointer it
  returned (`none` for nil) and `failed` tells whether it returned a non-nil
  error. -/
  | capOpen (url : String) (handle : Option Nat) (failed : Bool)
  /-- `Close()` on the capture handle `h`. -/
  | capClose (h : Nat)
  /-- `time.Sleep` of the given number of milliseconds. -/
  | sleep (ms : Nat)
  /-- `cmd.Start()` of the ffmpeg process `cmd`. -/
  | procStart (cmd : Nat)
  /-- `Write` on the ffmpeg input pipe `pipe`. -/
  | pipeWrite (pipe : Nat)
  /-- `Close()` on the ffmpeg input pipe `pipe`. -/
  | pipeClose (pipe : Nat)
  /-- `Process.Signal(SIGINT)` on the ffmpeg process `cmd`. -/
  | procSignal (cmd : Nat)
  /-- `cmd.Wait()` on the ffmpeg process `cmd`. -/
  | procWait (cmd : Nat)
  /-- `go func() { cmd.Wait(); ... }()`: the publisher watcher. -/
  | goWatcher (cmd : Nat)
  /-- `go func() { sm.processStream(stream) }()` for the session at `p`. -/
  | goProcessStream (p : Nat)
  /-- `go func() { sm.sendAlert(alert) }()`. -/
  | goSendAlert (alert : Alert)
  deriving DecidableEq, Repr

/-- The errors returned by the functions of the worker, one constructor per
`fmt.Errorf` format string. -/
inductive StreamError where
  /-- "maximum number of streams reached (%d)" -/
  | maxStreams (max : Int)
  /-- "stream for camera %s already exists" -/
  | alreadyExists (id : String)
  /-- "RTSP URL is required for camera %s" -/
  | urlRequired (id : String)
  /-- "failed to open RTSP stream for camera %s after 3 attempts: %v" -/
  | openFailedWith (id : String) (cause : String)
  /-- "failed to open RTSP stream for camera %s after 3 attempts" -/
  | openFailed (id : String)
  /-- "stream for camera %s not found" -/
  | notFound (id : String)
  /-- "failed to create snapshot: %v" -/
  | snapshotFailed (cause : String)
  /-- "input image is nil or empty" -/
  | imageEmpty
  /-- "frame buffer is nil" -/
  | frameBufferNil
  /-- "invalid MediaMTXURL: %w" -/
  | invalidMediaMTXURL
  /-- "failed to get ffmpeg stderr: %w" -/
  | ffmpegStderr
  /-- "failed to get ffmpeg stdin: %w" -/
  | ffmpegStdin
  /-- "failed to start ffmpeg: %w" -/
  | ffmpegStart
  deriving DecidableEq, Repr

/-- The error classes of the specification. -/
inductive ErrorKind where
  | CapacityExceeded
  | AlreadyRunning
  | InvalidSpec
  | SourceUnreachable
  | NotFound
  | Other
  deriving DecidableEq, Repr

/-- Which class of the specification an error value belongs to. -/
def StreamError.kind : StreamError → ErrorKind
  | .maxStreams _ => .CapacityExceeded
  | .alreadyExists _ => .AlreadyRunning
  | .urlRequired _ => .InvalidSpec
  | .openFailedWith _ _ => .SourceUnreachable
  | .openFailed _ => .SourceUnreachable
  | .notFound _ => .NotFound
  | _ => .Other

/-- The `StreamManager` (`config`, `streams`) together with the objects
its pointers refer to (`heap`), the trace of external calls, and the next
unused identity for tokens and handles.  `client`, `faceCascade` and
`upgrader` are external capabilities and carry no state of their own. -/
structure State where
  config : Config
  streams : List (String × Nat)
  heap : List CameraStream
  trace : List Event
  fresh : Nat
  deriving DecidableEq, Repr, Inhabited

/-! ## Go map operations on the registry -/

/-- Map index `m[k]` with the comma-ok result as an `Option`. -/
def mapGet : List (String × Nat) → String → Option Nat
  | [], _ => none
  | (k', v) :: rest, k => if k' = k then some v else mapGet rest k

/-- Builtin `delete(m, k)`. -/
def mapDelete (m : List (String × Nat)) (k : String) : List (String × Nat) :=
  m.filter (fun e => decide (e.1 ≠ k))

/-- Map assignment `m[k] = v`. -/
def mapSet (m : List (String × Nat)) (k : String) (v : Nat) : List (String × Nat) :=
  (k, v) :: mapDelete m k

/-- The keys of a map. -/
def mapKeys (m : List (String × Nat)) : List String :=
  m.map Prod.fst

/-! ## State helpers -/

/-- Append one external call to the trace. -/
def State.emit (s : State) (e : Event) : State :=
  { s with trace := s.trace ++ [e] }

/-- Dereference a `*CameraStream`. -/
def State.deref (s : State) (p : Nat) : Option CameraStream :=
  s.heap[p]?

/-- Store through a `*CameraStream`. -/
def State.store (s : State) (p : Nat) (st : CameraStream) : State :=
  { s with heap := s.heap.set p st }

/-- Whether the token `ctx` has been cancelled (`<-ctx.Done()` is ready). -/
def State.isDone (s : State) (ctx : Nat) : Bool :=
  s.trace.contains (Event.ctxCancel ctx)

/-- How many times `Close()` has been called on capture handle `h`. -/
def captureCloses (tr : List Event) (h : Nat) : Nat :=
  tr.count (Event.capClose h)

/-! ## Publisher -/

/-- Outcomes of the external steps of `startPublisher`: `hostname u` is
`url.Parse(u)` followed by `Hostname()` (`none` when parsing fails). -/
structure PubEnv where
  hostname : String → Option String
  stderrPipeOk : Bool
  stdinPipeOk : Bool
  startOk : Bool

/-- `buildRTSPPublishURL`. -/
def buildRTSPPublishURL (s : State) (env : PubEnv) (cameraID : String) :
    Except StreamError String :=
  match env.hostname s.config.MediaMTXURL with
  | none => .error .invalidMediaMTXURL
  | some u =>
    let host := if u = "" then "localhost" else u
    .ok ("rtsp://" ++ host ++ ":" ++ "8554" ++ "/" ++ cameraID)

/-- `startPublisher`.  The process gets identity `fresh`, its stdin pipe
identity `fresh + 1`. -/
def startPublisher (s : State) (env : PubEnv) (p : Nat) : State × Option StreamError :=
  match s.deref p with
  | none => (s, none)
  | some stream =>
    match buildRTSPPublishURL s env stream.Camera.ID with
    | .error e => (s, some e)
    | .ok publishURL =>
      let s1 := s.store p { stream with publishURL := publishURL }
      let cmd := s1.fresh
      let s2 := { s1 with fresh := s1.fresh + 1 }
      if !env.stderrPipeOk then (s2, some .ffmpegStderr)
      else if !env.stdinPipeOk then (s2, some .ffmpegStdin)
      else
        let stdin := s2.fresh
        let s3 := { s2 with fresh := s2.fresh + 1 }
        let s4 := s3.emit (.procStart cmd)
        if !env.startOk then (s4.emit (.pipeClose stdin), some .ffmpegStart)
        else
          let s5 := s4.store p
            { stream with publishURL := publishURL, ffmpegCmd := some cmd,
                          ffmpegIn := some stdin, published := true }
          (s5.emit (.goWatcher cmd), none)

/-- `stopPublisher`.  A nil `stream` is an address outside the heap.  Each
of the two `if` blocks leaves its field nil, whether or not it runs. -/
def stopPublisher (s : State) (p : Nat) : State :=
  match s.deref p with
  | none => s
  | some stream =>
    let s1 :=
      match stream.ffmpegIn with
      | some pipe => s.emit (.pipeClose pipe)
      | none => s
    let s2 :=
      match stream.ffmpegCmd with
      | some cmd => (s1.emit (.procSignal cmd)).emit (.procWait cmd)
      | none => s1
    s2.store p { stream with ffmpegIn := none, ffmpegCmd := none, published := false }

/-! ## StartStream -/

/-- The two results `capture, err` of one call of `gocv.OpenVideoCapture`.
The library is not part of this repository, so both shapes of a failing
call are admitted: the pointer returned next to a non-nil error may be nil
or a handle. -/
inductive OpenOutcome where
  /-- A non-nil `err`.  `handle` is the pointer returned with it: `none` for
  nil, otherwise what `IsOpened()` would report on that handle. -/
  | error (cause : String) (handle : Option Bool)
  /-- A nil `err` and a handle; `opened` is what its `IsOpened()` reports. -/
  | handle (opened : Bool)
  deriving DecidableEq, Repr

/-- How the retry loop of `StartStream` is left: by the `return` inside it,
or by falling out of it with the current value of `capture`. -/
inductive OpenLoopExit where
  | returned (err : StreamError)
  | finished (capture : Option VideoCapture)
  deriving DecidableEq, Repr

/-- The loop `for i := 0; i < 3; i++ { ... }` of `StartStream`; `k` is the
number of iterations left, `3 - i`.  `opens i` is the outcome of the open
call of iteration `i`.  `capture, err = gocv.OpenVideoCapture(rtspURL)`
assigns `capture` on the error path too, and that path calls no `Close()`. -/
def openLoop (opens : Nat → OpenOutcome) (camera : Camera) (ctx : Nat) :
    Nat → Nat → Option VideoCapture → State → State × OpenLoopExit
  | 0, _, capture, s => (s, .finished capture)
  | k + 1, i, _, s =>
    match opens i with
    | .error cause none =>
      let s1 := s.emit (.capOpen camera.RTSPURL none true)
      if i < 2 then
        openLoop opens camera ctx k (i + 1) none (s1.emit (.sleep ((i + 1) * 1000)))
      else
        (s1.emit (.ctxCancel ctx), .returned (.openFailedWith camera.ID cause))
    | .error cause (some opened) =>
      let capture : VideoCapture := { id := s.fresh, opened := opened }
      let s1 := { s with fresh := s.fresh + 1 }.emit
        (.capOpen camera.RTSPURL (some capture.id) true)
      if i < 2 then
        openLoop opens camera ctx k (i + 1) (some capture) (s1.emit (.sleep ((i + 1) * 1000)))
      else
        (s1.emit (.ctxCancel ctx), .returned (.openFailedWith camera.ID cause))
    | .handle opened =>
      let capture : VideoCapture := { id := s.fresh, opened := opened }
      let s1 := { s with fresh := s.fresh + 1 }.emit
        (.capOpen camera.RTSPURL (some capture.id) false)
      if capture.opened then
        (s1, .finished (some capture))
      else if i < 2 then
        openLoop opens camera ctx k (i + 1) (some capture)
          ((s1.emit (.capClose capture.id)).emit (.sleep ((i + 1) * 1000)))
      else
        openLoop opens camera ctx k (i + 1) (some capture) s1

/-- The environment of one `StartStream` call. -/
structure StartEnv where
  opens : Nat → OpenOutcome
  now : Time
  pub : PubEnv

/-- `StartStream`. -/
def StartStream (s : State) (env : StartEnv) (camera : Camera) : State × Option StreamError :=
  if (s.streams.length : Int) ≥ s.config.MaxStreams then
    (s, some (.maxStreams s.config.MaxStreams))
  else if (mapGet s.streams camera.ID).isSome then
    (s, some (.alreadyExists camera.ID))
  else if camera.RTSPURL = "" then
    (s, some (.urlRequired camera.ID))
  else
    let ctx := s.fresh
    let s1 := { s with fresh := s.fresh + 1 }
    match openLoop env.opens camera ctx 3 0 none s1 with
    | (s2, .returned err) => (s2, some err)
    | (s2, .finished capture) =>
      match capture with
      | none => (s2.emit (.ctxCancel ctx), some (.openFailed camera.ID))
      | some c =>
        if !c.opened then
          ((s2.emit (.ctxCancel ctx)).emit (.capClose c.id), some (.openFailed camera.ID))
        else
          let stream : CameraStream :=
            { Camera := camera, Capture := some c, Context := ctx, IsRunning := true,
              FrameCount := 0, StartTime := env.now, LastAlert := 0,
              ffmpegCmd := none, ffmpegIn := none, publishURL := "", published := false }
          let p := s2.heap.length
          let s3 := { s2 with heap := s2.heap ++ [stream],
                              streams := mapSet s2.streams camera.ID p }
          let s4 := (startPublisher s3 env.pub p).1
          (s4.emit (.goProcessStream p), none)

/-! ## StopStream -/

/-- `StopStream`.  A nil pointer stored in the map makes `stream.Cancel()`
panic; the deferred `recover` then returns the zero `error`. -/
def StopStream (s : State) (cameraID : String) : State × Option StreamError :=
  match mapGet s.streams cameraID with
  | none => (s, some (.notFound cameraID))
  | some p =>
    match s.deref p with
    | none => (s, none)
    | some stream =>
      let s1 := s.emit (.ctxCancel stream.Context)
      let s2 :=
        match stream.Capture with
        | some c => s1.emit (.capClose c.id)
        | none => s1
      let s3 := stopPublisher s2 p
      ({ s3 with streams := mapDelete s3.streams cameraID }, none)

/-! ## Alert throttling -/

/-- `time.Second`, a `Duration` in nanoseconds. -/
def Second : Int := 1000000000

/-- The largest `time.Duration`, `1<<63 - 1`. -/
def maxDuration : Int := 9223372036854775807

/-- The smallest `time.Duration`, `-1 << 63`. -/
def minDuration : Int := -9223372036854775808

/-- `t.Sub(u)`: the difference of two instants as a `Duration`, saturating
at the ends of the `Duration` range. -/
def timeSub (t u : Int) : Int :=
  if t - u > maxDuration then maxDuration
  else if t - u < minDuration then minDuration
  else t - u

/-- The environment of one `handleFaceDetection` call: the clock reading
taken by `time.Since`, the two later readings of `time.Now()`, and the
result of `createSnapshot` (snapshot URL, or the cause of its failure). -/
structure AlertEnv where
  since : Time
  now : Time
  detectedAt : Time
  snapshot : Except String String

/-- `handleFaceDetection` for `faces` detected rectangles. -/
def handleFaceDetection (s : State) (p : Nat) (faces : Nat) (env : AlertEnv) :
    State × Option StreamError :=
  match s.deref p with
  | none => (s, none)
  | some stream =>
    if timeSub env.since stream.LastAlert < 5 * Second then
      (s, none)
    else
      let s1 := s.store p { stream with LastAlert := env.now }
      match env.snapshot with
      | .error cause => (s1, some (.snapshotFailed cause))
      | .ok snapshotURL =>
        let alert : Alert :=
          { CameraID := stream.Camera.ID,
            DetectedAt := env.detectedAt,
            Description := "Face detected on camera " ++ stream.Camera.Name,
            SnapshotURL := snapshotURL,
            face_count := faces,
            camera_name := stream.Camera.Name,
            location := stream.Camera.Location }
        (s1.emit (.goSendAlert alert), none)

/-! ## Frame processing -/

/-- The result of writing a frame to the ffmpeg input pipe. -/
inductive WriteOutcome where
  | ok
  | closedPipe
  | otherError
  deriving DecidableEq, Repr

/-- What the collaborators do for one successfully read, non-empty frame:
the number of faces the detector returns, the environment of alert
handling, whether JPEG encoding for the publisher works and what the
write to the pipe returns. -/
structure FrameEnv where
  faces : Nat
  alert : AlertEnv
  encodeOk : Bool
  write : WriteOutcome

/-- One `stream.Capture.Read(&img)`: `ok = false`, or `ok = true` with an
empty image, or `ok = true` with a frame. -/
inductive ReadOutcome where
  | failed
  | empty
  | frame (f : FrameEnv)

/-- `processFrame`; `imgEmpty` is `img == nil || img.Empty()` and `frameNil`
is `frame == nil`.  Drawing on the image changes no state, and an error of
`handleFaceDetection` is only logged. -/
def processFrame (s : State) (p : Nat) (imgEmpty frameNil : Bool) (f : FrameEnv) :
    State × Option StreamError :=
  if imgEmpty then (s, some .imageEmpty)
  else if frameNil then (s, some .frameBufferNil)
  else if f.faces > 0 then ((handleFaceDetection s p f.faces f.alert).1, none)
  else (s, none)

/-- The block of `processStream` that pushes the frame to ffmpeg. -/
def pushFrame (s : State) (p : Nat) (f : FrameEnv) : State :=
  match s.deref p with
  | none => s
  | some stream =>
    match stream.ffmpegIn with
    | none => s
    | some pipe =>
      if !stream.published then s
      else if !f.encodeOk then s
      else
        let s1 := s.emit (.pipeWrite pipe)
        match f.write with
        | .ok => s1
        | .otherError => s1
        | .closedPipe =>
          (s1.emit (.pipeClose pipe)).store p
            { stream with published := false, ffmpegIn := none }

/-- Go `int64` wrap-around. -/
def wrapInt64 (x : Int) : Int :=
  (x + 9223372036854775808) % 18446744073709551616 - 9223372036854775808

/-- How the frame loop stands after consuming the given reads. -/
inductive LoopStatus where
  /-- still looping, with this value of `consecutiveErrors` -/
  | running (consecutiveErrors : Nat)
  /-- left through `case <-stream.Context.Done()` -/
  | cancelled
  /-- left because `stream.Capture == nil` -/
  | captureNil
  /-- left because `consecutiveErrors >= maxConsecutiveErrors` -/
  | tooManyErrors
  /-- the `stream` pointer itself was nil -/
  | nilStream
  deriving DecidableEq, Repr

/-- The constant `maxConsecutiveErrors`. -/
def maxConsecutiveErrors : Nat := 10

/-- The part of an iteration before the read: the `select` on the token
and the nil check of `stream.Capture`.  An error is the way the loop is
left; otherwise the session object is returned. -/
def loopGuard (s : State) (p : Nat) : Except LoopStatus CameraStream :=
  match s.deref p with
  | none => .error .nilStream
  | some stream =>
    if s.isDone stream.Context then .error .cancelled
    else if stream.Capture.isNone then .error .captureNil
    else .ok stream

/-- The `for { select { ... } }` loop of `processStream`, started with the
given value of `consecutiveErrors`; each iteration that reaches
`stream.Capture.Read` consumes one element of the list of reads.  When the
list is used up the loop is still running (status `running`). -/
def frameLoop (p : Nat) : List ReadOutcome → Nat → State → State × LoopStatus
  | [], consecutiveErrors, s =>
    match loopGuard s p with
    | .error status => (s, status)
    | .ok _ => (s, .running consecutiveErrors)
  | read :: rest, consecutiveErrors, s =>
    match loopGuard s p with
    | .error status => (s, status)
    | .ok stream =>
      match read with
      | .failed =>
        if consecutiveErrors + 1 ≥ maxConsecutiveErrors then (s, .tooManyErrors)
        else frameLoop p rest (consecutiveErrors + 1) (s.emit (.sleep 100))
      | .empty => frameLoop p rest 0 s
      | .frame f =>
        let s1 := s.store p { stream with FrameCount := wrapInt64 (stream.FrameCount + 1) }
        let s2 := (processFrame s1 p false false f).1
        frameLoop p rest 0 (pushFrame s2 p f)

/-- The deferred function of `processStream`: close the capture handle if
the field is non-nil. -/
def deferredClose (s : State) (p : Nat) : State :=
  match s.deref p with
  | none => s
  | some stream =>
    match stream.Capture with
    | some c => s.emit (.capClose c.id)
    | none => s

/-- The frame loop resumed with a given `consecutiveErrors`, followed by
the deferred function once the loop is left. -/
def resumeStream (s : State) (p : Nat) (consecutiveErrors : Nat) (reads : List ReadOutcome) :
    State × LoopStatus :=
  match frameLoop p reads consecutiveErrors s with
  | (s1, .running n) => (s1, .running n)
  | (s1, status) => (deferredClose s1 p, status)

/-- `processStream`: the loop starts with `consecutiveErrors := 0`. -/
def processStream (s : State) (p : Nat) (reads : List ReadOutcome) : State × LoopStatus :=
  resumeStream s p 0 reads

/-! ## GetStreamStatus -/

/-- One entry of the status map.  The `fps` and `uptime` fields of the Go
map are the float64 values `frame_count / elapsed.Seconds()` and
`elapsed.Seconds()`; the entry keeps their exact arguments. -/
structure StreamStatus where
  camera_id : String
  camera_name : String
  is_running : Bool
  frame_count : Int
  elapsed : Duration
  deriving DecidableEq, Repr

/-- The loop of `GetStreamStatus` over the registry; `now id` is the clock
reading taken while visiting `id`.  `none` is the panic on a nil pointer. -/
def statusEntries (s : State) (now : String → Time) :
    List (String × Nat) → Option (List (String × StreamStatus))
  | [] => some []
  | (id, p) :: rest =>
    match s.deref p, statusEntries s now rest with
    | some stream, some tail =>
      some ((id, { camera_id := id,
                   camera_name := stream.Camera.Name,
                   is_running := stream.IsRunning,
                   frame_count := stream.FrameCount,
                   elapsed := timeSub (now id) stream.StartTime }) :: tail)
    | _, _ => none

/-- `GetStreamStatus`. -/
def GetStreamStatus (s : State) (now : String → Time) : Option (List (String × StreamStatus)) :=
  statusEntries s now s.streams

/-! ## Shutdown in `main` -/

/-- The loop `for id, stream := range sm.streams { ... }` that `main` runs
under `streamMutex` after the quit signal: cancel the token and close the
capture handle of every entry.  A nil pointer in the map makes
`stream.Cancel()` panic, which abandons the loop. -/
def shutdownLoop (s : State) : List (String × Nat) → State
  | [] => s
  | entry :: rest =>
    match s.deref entry.2 with
    | none => s
    | some stream =>
      let s1 := s.emit (.ctxCancel stream.Context)
      let s2 :=
        match stream.Capture with
        | some c => s1.emit (.capClose c.id)
        | none => s1
      shutdownLoop s2 rest

/-- The shutdown block of `main` ("Stop all streams"), run over the entries
of the registry. -/
def shutdownStreams (s : State) : State :=
  shutdownLoop s s.streams

/-! ## Well-formed states -/

/-- Every pointer stored in the registry refers to an object of the heap
(Go has no dangling pointers) and the keys of the map are distinct. -/
def State.WF (s : State) : Prop :=
  (mapKeys s.streams).Nodup ∧ ∀ e ∈ s.streams, e.2 < s.heap.length

/-! ## Auxiliary definitions used in statements -/

/-- Some attempt among the three yields a handle that reports opened. -/
def SourceOpens (opens : Nat → OpenOutcome) : Prop :=
  ∃ i, i < 3 ∧ opens i = .handle true

/-- The first of the three attempts whose handle reports opened, if any. -/
def firstOpened (opens : Nat → OpenOutcome) : Option Nat :=
  if opens 0 = .handle true then some 0
  else if opens 1 = .handle true then some 1
  else if opens 2 = .handle true then some 2
  else none

/-- The external calls `stopPublisher` makes for a session in the given
state: close the pipe if there is one, then signal and wait for the
process if there is one. -/
def stopPublisherEvents (stream : CameraStream) : List Event :=
  (match stream.ffmpegIn with
    | some pipe => [Event.pipeClose pipe]
    | none => []) ++
  (match stream.ffmpegCmd with
    | some cmd => [Event.procSignal cmd, Event.procWait cmd]
    | none => [])

instance (s : State) : Decidable s.WF := by
  unfold State.WF
  infer_instance

/-- The state reached by issuing `StartStream` for the given calls, one
after the other. -/
def startMany (s : State) : List (Camera × StartEnv) → State
  | [] => s
  | call :: rest => startMany (StartStream s call.2 call.1).1 rest

/-- The external calls made on the way from one state to a later one: the
part of the later trace that was appended. -/
def newEvents (before after : State) : List Event :=
  after.trace.drop before.trace.length

/-- The number of `gocv.OpenVideoCapture` calls among the events. -/
def openAttempts (evs : List Event) : Nat :=
  evs.countP fun e =>
    match e with
    | .capOpen _ _ _ => true
    | _ => false

/-- The capture handles that `gocv.OpenVideoCapture` returned among the
events, with or without an error. -/
def handlesObtained (evs : List Event) : List Nat :=
  evs.filterMap fun e =>
    match e with
    | .capOpen _ (some h) _ => some h
    | _ => none

/-- The capture handles that `gocv.OpenVideoCapture` returned with a nil
error among the events. -/
def handlesOpenedOk (evs : List Event) : List Nat :=
  evs.filterMap fun e =>
    match e with
    | .capOpen _ (some h) false => some h
    | _ => none

/-- The capture handles that `gocv.OpenVideoCapture` returned together with
a non-nil error among the events. -/
def handlesWithError (evs : List Event) : List Nat :=
  evs.filterMap fun e =>
    match e with
    | .capOpen _ (some h) true => some h
    | _ => none

/-- The session object `StartStream` creates for an accepted capture
handle. -/
def sessionOf (camera : Camera) (c : VideoCapture) (ctx : Nat) (now : Time) : CameraStream :=
  { Camera := camera, Capture := some c, Context := ctx, IsRunning := true,
    FrameCount := 0, StartTime := now, LastAlert := 0,
    ffmpegCmd := none, ffmpegIn := none, publishURL := "", published := false }

/-- The state in which `StartStream` calls `startPublisher`: the session
object is allocated and stored in the registry. -/
def withSession (s2 : State) (camera : Camera) (c : VideoCapture) (ctx : Nat) (now : Time) :
    State :=
  { s2 with heap := s2.heap ++ [sessionOf camera c ctx now],
            streams := mapSet s2.streams camera.ID s2.heap.length }

/-- A frame on which faces were detected: the instant it is handled at,
the number of faces, and the URL its snapshot is stored under. -/
structure DetectionFrame where
  t : Time
  faces : Nat
  snapshotURL : String
  deriving DecidableEq, Repr

/-- The environment of `handleFaceDetection` for a detection frame: every
clock reading of the call is the instant of the frame and `createSnapshot`
succeeds. -/
def DetectionFrame.env (f : DetectionFrame) : AlertEnv :=
  { since := f.t, now := f.t, detectedAt := f.t, snapshot := .ok f.snapshotURL }

/-- `handleFaceDetection` called for each detection frame in turn on the
session at `p`. -/
def detectFrames (s : State) (p : Nat) : List DetectionFrame → State
  | [] => s
  | f :: rest => detectFrames (handleFaceDetection s p f.faces f.env).1 p rest

/-- The `DetectedAt` instants of the alerts dispatched in a trace. -/
def dispatchedAt (tr : List Event) : List Time :=
  tr.filterMap fun e =>
    match e with
    | .goSendAlert alert => some alert.DetectedAt
    | _ => none

/-- The throttle in the words of the specification: going through the
detection instants in order, an alert is dispatched if and only if no alert
was dispatched yet or at least 5 seconds have elapsed since the last
dispatched alert. `last` is the instant of the last dispatched alert. -/
def specThrottle : Option Time → List Time → List Time
  | _, [] => []
  | none, t :: rest => t :: specThrottle (some t) rest
  | some last, t :: rest =>
    if t - last ≥ 5 * Second then t :: specThrottle (some t) rest
    else specThrottle (some last) rest

/-- The instant of the last dispatched alert recorded in a session: the
zero `time.Time` means that no alert was dispatched yet. -/
def lastDispatched (stream : CameraStream) : Option Time :=
  if stream.LastAlert = 0 then none else some stream.LastAlert

/-- Whether a read is a failed read (`ok = false`). -/
def ReadOutcome.isFailed : ReadOutcome → Bool
  | .failed => true
  | _ => false

/-- Whether a read is a successful, non-empty read. -/
def ReadOutcome.isFrame : ReadOutcome → Bool
  | .frame _ => true
  | _ => false

/-- The number of failed reads that occurred back-to-back at the end of a
sequence of reads. -/
def backToBackFailed (reads : List ReadOutcome) : Nat :=
  (reads.reverse.takeWhile ReadOutcome.isFailed).length

/-- The number of successful non-empty reads in a sequence of reads. -/
def framesRead (reads : List ReadOutcome) : Nat :=
  reads.countP ReadOutcome.isFrame

/-- The frame counter of the session at `p`. -/
def frameCountOf (s : State) (p : Nat) : Option Int :=
  (s.deref p).map fun stream => stream.FrameCount

/-- How many external calls that stop a publisher (pipe close, signal,
wait) a trace holds. -/
def publisherStops (tr : List Event) : Nat :=
  tr.countP fun e =>
    match e with
    | .pipeClose _ => true
    | .procSignal _ => true
    | .procWait _ => true
    | _ => false

/-! ## Concrete inputs -/

/-- A publisher environment in which every step works. -/
def pubOk : PubEnv :=
  { hostname := fun _ => some "localhost", stderrPipeOk := true, stdinPipeOk := true,
    startOk := true }

/-- A start environment whose source opens at the first attempt. -/
def envOk : StartEnv :=
  { opens := fun _ => .handle true, now := 100, pub := pubOk }

/-- A start environment whose first handle does not report opened, whose
second open call fails and returns a handle with the error, and whose third
handle reports opened. -/
def envRetry : StartEnv :=
  { opens := fun i =>
      if i = 0 then .handle false
      else if i = 1 then .error "timeout" (some false)
      else .handle true,
    now := 100, pub := pubOk }

/-- A start environment whose source is unreachable: every open call
returns an error together with a handle that is not opened, as
`gocv.VideoCaptureFile` does. -/
def envUnreachable : StartEnv :=
  { opens := fun _ => .error "Error opening file" (some false), now := 100, pub := pubOk }

/-- A configuration with the given capacity. -/
def cfgMax (max : Int) : Config :=
  { BackendURL := "http://localhost:3000", MediaMTXURL := "http://localhost:8888",
    WorkerPort := 8080, MaxStreams := max,
    FaceCascade := "haarcascade_frontalface_default.xml", StoragePath := "./snapshots" }

/-- The state of a freshly created manager with the given capacity. -/
def emptyState (max : Int) : State :=
  { config := cfgMax max, streams := [], heap := [], trace := [], fresh := 0 }

/-- A camera with the given id and a non-empty source URL. -/
def cam (id : String) : Camera :=
  { ID := id, Name := "cam-" ++ id, RTSPURL := "rtsp://host/" ++ id, Location := "lab",
    Enabled := true }

/-- The manager with capacity 4 after camera "A" was started. -/
def stateA : State := (StartStream (emptyState 4) envOk (cam "A")).1

/-- The manager with capacity 4 after cameras "A" and "B" were started. -/
def stateAB : State := (StartStream stateA envOk (cam "B")).1

/-- A manager of capacity 2 that is full: cameras "A" and "B" are
registered. -/
def fullState2 : State :=
  (StartStream (StartStream (emptyState 2) envOk (cam "A")).1 envOk (cam "B")).1

/-- The session object of camera "A" in `stateA`. -/
def sessionA : CameraStream :=
  { Camera := cam "A", Capture := some { id := 1, opened := true }, Context := 0,
    IsRunning := true, FrameCount := 0, StartTime := 100, LastAlert := 0,
    ffmpegCmd := some 2, ffmpegIn := some 3, publishURL := "rtsp://localhost:8554/A",
    published := true }

/-- A camera with the given id and an empty source URL. -/
def camNoURL (id : String) : Camera :=
  { ID := id, Name := "cam-" ++ id, RTSPURL := "", Location := "lab", Enabled := true }

/-- A successfully read frame with one face, handled at 10 s, whose
snapshot, encoding and pipe write all work. -/
def frameOk : FrameEnv :=
  { faces := 1,
    alert := { since := 10 * Second, now := 10 * Second, detectedAt := 10 * Second,
               snapshot := .ok "/snapshots/A_10.jpg" },
    encodeOk := true, write := .ok }

/-- A sequence of reads with at most two failed reads in a row. -/
def readsMixed : List ReadOutcome :=
  [.failed, .frame frameOk, .empty, .failed, .failed, .frame frameOk]

/-! ## Basic lemmas -/

@[simp] theorem emit_config (s : State) (e : Event) : (s.emit e).config = s.config := rfl
@[simp] theorem emit_streams (s : State) (e : Event) : (s.emit e).streams = s.streams := rfl
@[simp] theorem emit_heap (s : State) (e : Event) : (s.emit e).heap = s.heap := rfl
@[simp] theorem emit_fresh (s : State) (e : Event) : (s.emit e).fresh = s.fresh := rfl
@[simp] theorem emit_trace (s : State) (e : Event) : (s.emit e).trace = s.trace ++ [e] := rfl
@[simp] theorem emit_deref (s : State) (e : Event) (p : Nat) : (s.emit e).deref p = s.deref p := rfl

@[simp] theorem deref_with_trace (s : State) (tr : List Event) (p : Nat) :
    ({ s with trace := tr } : State).deref p = s.deref p := rfl

@[simp] theorem deref_with_streams (s : State) (m : List (String × Nat)) (p : Nat) :
    ({ s with streams := m } : State).deref p = s.deref p := rfl

@[simp] theorem deref_with_fresh (s : State) (n : Nat) (p : Nat) :
    ({ s with fresh := n } : State).deref p = s.deref p := rfl

@[simp] theorem store_config (s : State) (p : Nat) (x : CameraStream) :
    (s.store p x).config = s.config := rfl
@[simp] theorem store_streams (s : State) (p : Nat) (x : CameraStream) :
    (s.store p x).streams = s.streams := rfl
@[simp] theorem store_trace (s : State) (p : Nat) (x : CameraStream) :
    (s.store p x).trace = s.trace := rfl
@[simp] theorem store_fresh (s : State) (p : Nat) (x : CameraStream) :
    (s.store p x).fresh = s.fresh := rfl
@[simp] theorem store_heap_length (s : State) (p : Nat) (x : CameraStream) :
    (s.store p x).heap.length = s.heap.length := by simp [State.store]

theorem store_deref_same (s : State) (p : Nat) (x : CameraStream) (h : p < s.heap.length) :
    (s.store p x).deref p = some x := by
  simp [State.store, State.deref, h]

theorem deref_lt {s : State} {p : Nat} {x : CameraStream} (h : s.deref p = some x) :
    p < s.heap.length := by
  unfold State.deref at h
  exact (List.getElem?_eq_some_iff.mp h).1

theorem deref_of_lt (s : State) {p : Nat} (h : p < s.heap.length) :
    ∃ x, s.deref p = some x :=
  ⟨s.heap[p], by simp [State.deref, h]⟩

/-! ### Registry map -/

theorem mapGet_eq_none_iff (m : List (String × Nat)) (k : String) :
    mapGet m k = none ↔ k ∉ mapKeys m := by
  induction m with
  | nil => simp [mapGet, mapKeys]
  | cons e rest ih =>
    obtain ⟨k', v⟩ := e
    by_cases hk : k' = k
    · simp [mapGet, mapKeys, hk]
    · have hk' : ¬ k = k' := fun h => hk h.symm
      simpa [mapGet, mapKeys, hk, hk'] using ih

theorem mapGet_isSome_iff (m : List (String × Nat)) (k : String) :
    (mapGet m k).isSome = true ↔ k ∈ mapKeys m := by
  rw [← not_iff_not, ← mapGet_eq_none_iff]
  cases mapGet m k <;> simp

theorem mapGet_mem {m : List (String × Nat)} {k : String} {p : Nat}
    (h : mapGet m k = some p) : (k, p) ∈ m := by
  induction m with
  | nil => simp [mapGet] at h
  | cons e rest ih =>
    obtain ⟨k', v⟩ := e
    by_cases hk : k' = k
    · simp [mapGet, hk] at h
      simp [hk, h]
    · simp [mapGet, hk] at h
      exact List.mem_cons_of_mem _ (ih h)

theorem mapGet_mapSet_same (m : List (String × Nat)) (k : String) (v : Nat) :
    mapGet (mapSet m k v) k = some v := by
  simp [mapSet, mapGet]

theorem mem_mapKeys_mapDelete (m : List (String × Nat)) (k k' : String) :
    k' ∈ mapKeys (mapDelete m k) ↔ k' ∈ mapKeys m ∧ k' ≠ k := by
  simp only [mapKeys, mapDelete, List.mem_map, List.mem_filter]
  constructor
  · rintro ⟨e, ⟨he, hne⟩, rfl⟩
    exact ⟨⟨e, he, rfl⟩, by simpa using hne⟩
  · rintro ⟨⟨e, he, rfl⟩, hne⟩
    exact ⟨e, ⟨he, by simpa using hne⟩, rfl⟩

theorem mapDelete_length_lt {m : List (String × Nat)} {k : String} (h : k ∈ mapKeys m) :
    (mapDelete m k).length < m.length := by
  induction m with
  | nil => simp [mapKeys] at h
  | cons e rest ih =>
    obtain ⟨k', v⟩ := e
    by_cases hk : k' = k
    · have : (mapDelete ((k', v) :: rest) k) = mapDelete rest k := by
        simp [mapDelete, hk]
      rw [this]
      exact Nat.lt_succ_of_le (List.length_filter_le _ _)
    · have hmem : k ∈ mapKeys rest := by
        have hk' : ¬ k = k' := fun h => hk h.symm
        simpa [mapKeys, hk'] using h
      have : (mapDelete ((k', v) :: rest) k) = (k', v) :: mapDelete rest k := by
        simp [mapDelete, hk]
      rw [this]
      simpa using ih hmem

theorem mapDelete_of_not_mem {m : List (String × Nat)} {k : String} (h : k ∉ mapKeys m) :
    mapDelete m k = m := by
  unfold mapDelete
  rw [List.filter_eq_self]
  intro e he
  have : e.1 ≠ k := by
    intro hk
    exact h (by simpa [mapKeys] using ⟨e.2, by rw [← hk]; exact he⟩)
  simpa using this

/-! ### Publisher lemmas -/

theorem startPublisher_frame (s : State) (env : PubEnv) (p : Nat) :
    (startPublisher s env p).1.config = s.config ∧
    (startPublisher s env p).1.streams = s.streams ∧
    (startPublisher s env p).1.heap.length = s.heap.length := by
  unfold startPublisher
  cases hd : s.deref p with
  | none => simp
  | some stream =>
    simp only [buildRTSPPublishURL]
    cases env.hostname s.config.MediaMTXURL with
    | none => simp
    | some u =>
      cases env.stderrPipeOk <;> cases env.stdinPipeOk <;> cases env.startOk <;>
        simp [State.store, State.emit]

@[simp] theorem startPublisher_config (s : State) (env : PubEnv) (p : Nat) :
    (startPublisher s env p).1.config = s.config := (startPublisher_frame s env p).1

@[simp] theorem startPublisher_streams (s : State) (env : PubEnv) (p : Nat) :
    (startPublisher s env p).1.streams = s.streams := (startPublisher_frame s env p).2.1

@[simp] theorem startPublisher_heap_length (s : State) (env : PubEnv) (p : Nat) :
    (startPublisher s env p).1.heap.length = s.heap.length := (startPublisher_frame s env p).2.2

theorem stopPublisher_frame (s : State) (p : Nat) :
    (stopPublisher s p).config = s.config ∧
    (stopPublisher s p).streams = s.streams ∧
    (stopPublisher s p).fresh = s.fresh ∧
    (stopPublisher s p).heap.length = s.heap.length := by
  unfold stopPublisher
  cases hd : s.deref p with
  | none => simp
  | some stream =>
    cases h1 : stream.ffmpegIn <;> cases h2 : stream.ffmpegCmd <;>
      simp [State.store, State.emit, h1, h2]

/-! ### The open-retry loop -/

theorem openLoop_frame (opens : Nat → OpenOutcome) (camera : Camera) (ctx : Nat) :
    ∀ (k i : Nat) (capture : Option VideoCapture) (s : State),
      (openLoop opens camera ctx k i capture s).1.config = s.config ∧
      (openLoop opens camera ctx k i capture s).1.streams = s.streams ∧
      (openLoop opens camera ctx k i capture s).1.heap = s.heap := by
  intro k
  induction k with
  | zero => intro i capture s; simp [openLoop]
  | succ k ih =>
    intro i capture s
    unfold openLoop
    rcases opens i with ⟨cause, _ | opened⟩ | opened
    · by_cases hi : i < 2
      · simp only [hi, if_true]
        have := ih (i + 1) none
          ((s.emit (.capOpen camera.RTSPURL none true)).emit (.sleep ((i + 1) * 1000)))
        simpa using this
      · simp [hi]
    · by_cases hi : i < 2
      · simp only [hi, if_true]
        have := ih (i + 1) (some { id := s.fresh, opened := opened })
          (({ s with fresh := s.fresh + 1 }.emit
            (.capOpen camera.RTSPURL (some s.fresh) true)).emit (.sleep ((i + 1) * 1000)))
        simpa using this
      · simp [hi, State.emit]
    · cases opened with
      | true => simp [State.emit]
      | false =>
        by_cases hi : i < 2
        · simp only [hi, if_true]
          have := ih (i + 1) (some { id := s.fresh, opened := false })
            ((({ s with fresh := s.fresh + 1 }.emit
              (.capOpen camera.RTSPURL (some s.fresh) false)).emit
              (.capClose s.fresh)).emit (.sleep ((i + 1) * 1000)))
          simpa using this
        · simp only [hi, if_false]
          have := ih (i + 1) (some { id := s.fresh, opened := false })
            ({ s with fresh := s.fresh + 1 }.emit
              (.capOpen camera.RTSPURL (some s.fresh) false))
          simpa using this

theorem openLoop_of_sourceOpens (opens : Nat → OpenOutcome) (camera : Camera) (ctx : Nat)
    (s : State) (h : SourceOpens opens) :
    ∃ c, (openLoop opens camera ctx 3 0 none s).2 = .finished (some c) ∧ c.opened = true := by
  obtain ⟨i, hi, hopen⟩ := h
  rcases h0 : opens 0 with ⟨c0, _ | b0⟩ | (_ | _) <;>
  rcases h1 : opens 1 with ⟨c1, _ | b1⟩ | (_ | _) <;>
  rcases h2 : opens 2 with ⟨c2, _ | b2⟩ | (_ | _) <;>
  first
  | (simp [openLoop, h0, h1, h2]; done)
  | (exfalso
     interval_cases i <;> simp_all)

theorem openLoop_of_not_sourceOpens (opens : Nat → OpenOutcome) (camera : Camera) (ctx : Nat)
    (s : State) (h : ¬ SourceOpens opens) :
    (∃ cause, (openLoop opens camera ctx 3 0 none s).2 =
        .returned (.openFailedWith camera.ID cause)) ∨
    (∃ c, (openLoop opens camera ctx 3 0 none s).2 = .finished (some c) ∧ c.opened = false) := by
  have n0 : opens 0 ≠ .handle true := fun e => h ⟨0, by decide, e⟩
  have n1 : opens 1 ≠ .handle true := fun e => h ⟨1, by decide, e⟩
  have n2 : opens 2 ≠ .handle true := fun e => h ⟨2, by decide, e⟩
  rcases h0 : opens 0 with ⟨c0, _ | b0⟩ | (_ | _) <;>
  rcases h1 : opens 1 with ⟨c1, _ | b1⟩ | (_ | _) <;>
  rcases h2 : opens 2 with ⟨c2, _ | b2⟩ | (_ | _) <;>
  simp_all [openLoop]

/-! ### StartStream -/

theorem StartStream_ok (s : State) (env : StartEnv) (camera : Camera)
    (hcap : (s.streams.length : Int) < s.config.MaxStreams)
    (hnew : camera.ID ∉ mapKeys s.streams)
    (hurl : camera.RTSPURL ≠ "")
    (hopen : SourceOpens env.opens) :
    (StartStream s env camera).2 = none ∧
    (StartStream s env camera).1.streams = mapSet s.streams camera.ID s.heap.length ∧
    (StartStream s env camera).1.config = s.config ∧
    (StartStream s env camera).1.heap.length = s.heap.length + 1 := by
  have hget : mapGet s.streams camera.ID = none := (mapGet_eq_none_iff _ _).2 hnew
  have hcap' : ¬ ((s.streams.length : Int) ≥ s.config.MaxStreams) := not_le.mpr hcap
  obtain ⟨c, hc, hopened⟩ :=
    openLoop_of_sourceOpens env.opens camera s.fresh { s with fresh := s.fresh + 1 } hopen
  have hframe := openLoop_frame env.opens camera s.fresh 3 0 none { s with fresh := s.fresh + 1 }
  unfold StartStream
  rcases hL : openLoop env.opens camera s.fresh 3 0 none { s with fresh := s.fresh + 1 }
    with ⟨s2, exit⟩
  rw [hL] at hc hframe
  simp only at hc hframe
  subst hc
  obtain ⟨hf1, hf2, hf3⟩ := hframe
  simp [hcap', hget, hurl, hL, hopened, hf1, hf2, hf3]

theorem StartStream_ok_inv (s : State) (env : StartEnv) (camera : Camera)
    (h : (StartStream s env camera).2 = none) :
    (s.streams.length : Int) < s.config.MaxStreams ∧
    camera.ID ∉ mapKeys s.streams ∧ camera.RTSPURL ≠ "" ∧ SourceOpens env.opens := by
  unfold StartStream at h
  by_cases hcap : (s.streams.length : Int) ≥ s.config.MaxStreams
  · simp [hcap] at h
  · by_cases hex : (mapGet s.streams camera.ID).isSome = true
    · simp [hcap, hex] at h
    · by_cases hurl : camera.RTSPURL = ""
      · simp [hcap, hex, hurl] at h
      · refine ⟨not_le.mp hcap, ?_, hurl, ?_⟩
        · rw [← mapGet_isSome_iff]; exact hex
        · by_contra hno
          simp only [hcap, hex, hurl, if_false] at h
          rcases hL : openLoop env.opens camera s.fresh 3 0 none
            { s with fresh := s.fresh + 1 } with ⟨s2, exit⟩
          rw [hL] at h
          rcases openLoop_of_not_sourceOpens env.opens camera s.fresh
            { s with fresh := s.fresh + 1 } hno with ⟨cause, hc⟩ | ⟨c, hc, hcl⟩
          · rw [hL] at hc
            simp only at hc
            subst hc
            simp at h
          · rw [hL] at hc
            simp only at hc
            subst hc
            simp [hcl] at h

theorem StartStream_err_frame (s : State) (env : StartEnv) (camera : Camera) (e : StreamError)
    (h : (StartStream s env camera).2 = some e) :
    (StartStream s env camera).1.streams = s.streams ∧
    (StartStream s env camera).1.heap = s.heap ∧
    (StartStream s env camera).1.config = s.config := by
  have hframe := openLoop_frame env.opens camera s.fresh 3 0 none { s with fresh := s.fresh + 1 }
  unfold StartStream at h ⊢
  by_cases hcap : (s.streams.length : Int) ≥ s.config.MaxStreams
  · simp [hcap]
  · by_cases hex : (mapGet s.streams camera.ID).isSome = true
    · simp [hcap, hex]
    · by_cases hurl : camera.RTSPURL = ""
      · simp [hcap, hex, hurl]
      · rcases hL : openLoop env.opens camera s.fresh 3 0 none
          { s with fresh := s.fresh + 1 } with ⟨s2, exit⟩
        rw [hL] at hframe
        simp only [hcap, hex, hurl, if_false] at h ⊢
        rw [hL] at h ⊢
        obtain ⟨hf1, hf2, hf3⟩ := hframe
        simp only at hf1 hf2 hf3
        cases exit with
        | returned err => exact ⟨hf2, hf3, hf1⟩
        | finished capture =>
          cases capture with
          | none => exact ⟨hf2, hf3, hf1⟩
          | some c =>
            cases hco : c.opened with
            | false => simp [hco, hf1, hf2, hf3]
            | true => simp [hco] at h

/-! ### stopPublisher and StopStream -/

theorem stopPublisher_trace (s : State) (p : Nat) (stream : CameraStream)
    (h : s.deref p = some stream) :
    (stopPublisher s p).trace = s.trace ++ stopPublisherEvents stream := by
  unfold stopPublisher stopPublisherEvents
  rw [h]
  cases h1 : stream.ffmpegIn <;> cases h2 : stream.ffmpegCmd <;> simp [h1, h2]

theorem stopPublisher_deref (s : State) (p : Nat) (stream : CameraStream)
    (h : s.deref p = some stream) :
    (stopPublisher s p).deref p =
      some { stream with ffmpegIn := none, ffmpegCmd := none, published := false } := by
  have hlt := deref_lt h
  unfold stopPublisher
  rw [h]
  cases h1 : stream.ffmpegIn <;> cases h2 : stream.ffmpegCmd <;>
    simp [h1, h2, State.store, State.deref, State.emit, hlt]

theorem StopStream_registered (s : State) (cameraID : String) (p : Nat) (stream : CameraStream)
    (hp : mapGet s.streams cameraID = some p) (hd : s.deref p = some stream) :
    (StopStream s cameraID).2 = none ∧
    (StopStream s cameraID).1.streams = mapDelete s.streams cameraID ∧
    (StopStream s cameraID).1.config = s.config ∧
    (StopStream s cameraID).1.heap.length = s.heap.length ∧
    (StopStream s cameraID).1.trace =
      s.trace ++ [Event.ctxCancel stream.Context] ++
        (match stream.Capture with
          | some c => [Event.capClose c.id]
          | none => []) ++ stopPublisherEvents stream ∧
    (StopStream s cameraID).1.deref p =
      some { stream with ffmpegIn := none, ffmpegCmd := none, published := false } := by
  unfold StopStream
  rw [hp]
  simp only [hd]
  cases hc : stream.Capture with
  | none =>
    have hd1 : (s.emit (.ctxCancel stream.Context)).deref p = some stream := by simpa using hd
    have ht := stopPublisher_trace _ p stream hd1
    have hh := stopPublisher_deref _ p stream hd1
    have hf := stopPublisher_frame (s.emit (.ctxCancel stream.Context)) p
    refine ⟨by simp, ?_, ?_, ?_, ?_, ?_⟩
    · simp [hf.2.1]
    · simp [hf.1]
    · simp [hf.2.2.2]
    · simp [ht]
    · simpa [State.deref, hc] using hh
  | some c =>
    have hd1 : ((s.emit (.ctxCancel stream.Context)).emit (.capClose c.id)).deref p =
        some stream := by simpa using hd
    have ht := stopPublisher_trace _ p stream hd1
    have hh := stopPublisher_deref _ p stream hd1
    have hf := stopPublisher_frame ((s.emit (.ctxCancel stream.Context)).emit (.capClose c.id)) p
    refine ⟨by simp, ?_, ?_, ?_, ?_, ?_⟩
    · simp [hf.2.1]
    · simp [hf.1]
    · simp [hf.2.2.2]
    · simp [ht]
    · simpa [State.deref, hc] using hh

theorem statusEntries_keys (s : State) (now : String → Time) :
    ∀ m : List (String × Nat), (∀ e ∈ m, e.2 < s.heap.length) →
      ∃ st, statusEntries s now m = some st ∧ st.map Prod.fst = mapKeys m := by
  intro m
  induction m with
  | nil => intro _; exact ⟨[], rfl, rfl⟩
  | cons e rest ih =>
    intro h
    obtain ⟨id, p⟩ := e
    obtain ⟨st, hst, hkeys⟩ := ih (fun e he => h e (List.mem_cons_of_mem _ he))
    obtain ⟨x, hx⟩ := deref_of_lt s (h (id, p) (List.mem_cons_self _ _))
    have hx' : s.deref p = some x := hx
    refine ⟨(id, { camera_id := id, camera_name := x.Camera.Name, is_running := x.IsRunning,
                   frame_count := x.FrameCount,
                   elapsed := timeSub (now id) x.StartTime }) :: st, ?_, ?_⟩
    · simp [statusEntries, hx', hst]
    · simp [mapKeys] at hkeys ⊢
      exact hkeys

theorem stopPublisherEvents_count_capClose (stream : CameraStream) (h : Nat) :
    (stopPublisherEvents stream).count (Event.capClose h) = 0 := by
  unfold stopPublisherEvents
  cases stream.ffmpegIn <;> cases stream.ffmpegCmd <;> simp [List.count_cons]

/-! ### Sequences of starts -/

theorem StartStream_at_capacity (s : State) (env : StartEnv) (camera : Camera)
    (h : s.config.MaxStreams ≤ (s.streams.length : Int)) :
    StartStream s env camera = (s, some (StreamError.maxStreams s.config.MaxStreams)) := by
  unfold StartStream
  simp [h]

theorem mapSet_length_of_not_mem {m : List (String × Nat)} {k : String} (v : Nat)
    (h : k ∉ mapKeys m) : (mapSet m k v).length = m.length + 1 := by
  simp [mapSet, mapDelete_of_not_mem h]

theorem mem_mapKeys_mapSet (m : List (String × Nat)) (k k' : String) (v : Nat) :
    k' ∈ mapKeys (mapSet m k v) ↔ k' = k ∨ (k' ∈ mapKeys m ∧ k' ≠ k) := by
  have := mem_mapKeys_mapDelete m k k'
  simp only [mapSet, mapKeys, List.map_cons, List.mem_cons] at this ⊢
  rw [this]

theorem startMany_capacity (m : Nat) :
    ∀ (calls : List (Camera × StartEnv)) (s : State),
      s.config.MaxStreams = (m : Int) →
      s.streams.length ≤ m →
      (calls.map (fun c => c.1.ID)).Nodup →
      (∀ c ∈ calls, c.1.ID ∉ mapKeys s.streams) →
      (∀ c ∈ calls, c.1.RTSPURL ≠ "") →
      (∀ c ∈ calls, SourceOpens c.2.opens) →
      ∀ (k : Nat) (hk : k < calls.length),
        (startMany s (calls.take k)).config.MaxStreams = (m : Int) ∧
        (startMany s (calls.take k)).streams.length = min (s.streams.length + k) m ∧
        calls[k].1.ID ∉ mapKeys (startMany s (calls.take k)).streams := by
  intro calls
  induction calls with
  | nil => intro s _ _ _ _ _ _ k hk; simp at hk
  | cons call rest ih =>
    intro s hmax hlen hnodup hfresh hurl hopen k hk
    cases k with
    | zero =>
      refine ⟨by simpa [startMany] using hmax, ?_, ?_⟩
      · simp [startMany, hlen]
      · simpa [startMany] using hfresh call (List.mem_cons_self _ _)
    | succ k =>
      have hk' : k < rest.length := by simpa using hk
      have hnd : call.1.ID ∉ rest.map (fun c => c.1.ID) ∧ (rest.map (fun c => c.1.ID)).Nodup :=
        List.nodup_cons.mp hnodup
      have hrestfresh : ∀ c ∈ rest, c.1.ID ≠ call.1.ID := by
        intro c hc heq
        exact hnd.1 (List.mem_map.mpr ⟨c, hc, heq⟩)
      by_cases hfull : s.streams.length < m
      · have hcap : (s.streams.length : Int) < s.config.MaxStreams := by
          rw [hmax]; exact_mod_cast hfull
        obtain ⟨_, hstr, hcfg, _⟩ := StartStream_ok s call.2 call.1 hcap
          (hfresh call (List.mem_cons_self _ _)) (hurl call (List.mem_cons_self _ _))
          (hopen call (List.mem_cons_self _ _))
        have hlen1 : (StartStream s call.2 call.1).1.streams.length = s.streams.length + 1 := by
          rw [hstr]
          exact mapSet_length_of_not_mem _ (hfresh call (List.mem_cons_self _ _))
        have := ih (StartStream s call.2 call.1).1 (by rw [hcfg]; exact hmax)
          (by rw [hlen1]; exact hfull) hnd.2
          (by
            intro c hc hmem
            rw [hstr, mem_mapKeys_mapSet] at hmem
            rcases hmem with h1 | ⟨h1, _⟩
            · exact hrestfresh c hc h1
            · exact hfresh c (List.mem_cons_of_mem _ hc) h1)
          (fun c hc => hurl c (List.mem_cons_of_mem _ hc))
          (fun c hc => hopen c (List.mem_cons_of_mem _ hc)) k hk'
        obtain ⟨h1, h2, h3⟩ := this
        refine ⟨by simpa [startMany] using h1, ?_, by simpa [startMany] using h3⟩
        simp only [List.take_succ_cons, startMany]
        rw [h2, hlen1]
        congr 1
        omega
      · have hlenm : s.streams.length = m := by omega
        have hstay : StartStream s call.2 call.1 =
            (s, some (StreamError.maxStreams s.config.MaxStreams)) :=
          StartStream_at_capacity s call.2 call.1 (by rw [hmax, hlenm])
        have := ih s hmax hlen hnd.2 (fun c hc => hfresh c (List.mem_cons_of_mem _ hc))
          (fun c hc => hurl c (List.mem_cons_of_mem _ hc))
          (fun c hc => hopen c (List.mem_cons_of_mem _ hc)) k hk'
        obtain ⟨h1, h2, h3⟩ := this
        refine ⟨by simpa [startMany, hstay] using h1, ?_, by simpa [startMany, hstay] using h3⟩
        simp only [List.take_succ_cons, startMany, hstay]
        rw [h2, hlenm]
        simp

/-! ### Alert throttling -/

theorem timeSub_lt_iff (t u : Int) : timeSub t u < 5 * Second ↔ t - u < 5 * Second := by
  unfold timeSub maxDuration minDuration Second
  split_ifs <;> omega

theorem dispatchedAt_append (tr tr' : List Event) :
    dispatchedAt (tr ++ tr') = dispatchedAt tr ++ dispatchedAt tr' := by
  simp [dispatchedAt, List.filterMap_append]

theorem handleFaceDetection_suppressed (s : State) (p faces : Nat) (env : AlertEnv)
    (stream : CameraStream) (hd : s.deref p = some stream)
    (h : env.since - stream.LastAlert < 5 * Second) :
    handleFaceDetection s p faces env = (s, none) := by
  unfold handleFaceDetection
  rw [hd]
  simp [timeSub_lt_iff, h]

theorem handleFaceDetection_dispatched (s : State) (p faces : Nat) (env : AlertEnv)
    (stream : CameraStream) (url : String) (hd : s.deref p = some stream)
    (h : ¬ env.since - stream.LastAlert < 5 * Second) (hsnap : env.snapshot = .ok url) :
    handleFaceDetection s p faces env =
      ((s.store p { stream with LastAlert := env.now }).emit
        (.goSendAlert
          { CameraID := stream.Camera.ID,
            DetectedAt := env.detectedAt,
            Description := "Face detected on camera " ++ stream.Camera.Name,
            SnapshotURL := url,
            face_count := faces,
            camera_name := stream.Camera.Name,
            location := stream.Camera.Location }), none) := by
  unfold handleFaceDetection
  rw [hd]
  simp [timeSub_lt_iff, h, hsnap]

theorem detectFrames_dispatched (p : Nat) :
    ∀ (frames : List DetectionFrame) (s : State) (stream : CameraStream),
      s.deref p = some stream →
      (∀ f ∈ frames, 5 * Second ≤ f.t) →
      dispatchedAt (detectFrames s p frames).trace =
        dispatchedAt s.trace ++ specThrottle (lastDispatched stream) (frames.map (fun f => f.t)) := by
  intro frames
  induction frames with
  | nil => intro s stream _ _; simp [detectFrames, specThrottle]
  | cons f rest ih =>
    intro s stream hd hlate
    have hf : 5 * Second ≤ f.t := hlate f (List.mem_cons_self _ _)
    have hrest : ∀ g ∈ rest, 5 * Second ≤ g.t := fun g hg => hlate g (List.mem_cons_of_mem _ hg)
    have hlt := deref_lt hd
    have hpos : (0 : Int) < f.t := lt_of_lt_of_le (by decide) hf
    by_cases hthr : f.t - stream.LastAlert < 5 * Second
    · -- suppressed
      have hstep : handleFaceDetection s p f.faces f.env = (s, none) :=
        handleFaceDetection_suppressed s p f.faces f.env stream hd hthr
      have hne : stream.LastAlert ≠ 0 := by
        intro h0
        rw [h0, sub_zero] at hthr
        exact absurd hf (not_le.mpr hthr)
      simp only [detectFrames, hstep, List.map_cons]
      rw [ih s stream hd hrest]
      simp [lastDispatched, hne, specThrottle, not_le.mpr hthr]
    · -- dispatched
      have hstep := handleFaceDetection_dispatched s p f.faces f.env stream f.snapshotURL hd
        hthr rfl
      have hd' : (handleFaceDetection s p f.faces f.env).1.deref p =
          some { stream with LastAlert := f.t } := by
        rw [hstep]
        simp only [emit_deref]
        exact store_deref_same s p _ hlt
      have htr : dispatchedAt (handleFaceDetection s p f.faces f.env).1.trace =
          dispatchedAt s.trace ++ [f.t] := by
        rw [hstep]
        simp [dispatchedAt_append, dispatchedAt, DetectionFrame.env]
      have hne : f.t ≠ 0 := ne_of_gt hpos
      simp only [detectFrames, List.map_cons]
      rw [ih _ _ hd' hrest, htr]
      have hlast : lastDispatched { stream with LastAlert := f.t } = some f.t := by
        simp [lastDispatched, hne]
      rw [hlast]
      by_cases h0 : stream.LastAlert = 0
      · simp [lastDispatched, h0, specThrottle]
      · simp [lastDispatched, h0, specThrottle, not_lt.mp hthr]

/-! ### Frame loop: sustained read failure and cancellation -/

theorem loopGuard_ok (s : State) (p : Nat) (stream : CameraStream) (c : VideoCapture)
    (hd : s.deref p = some stream) (hdone : s.isDone stream.Context = false)
    (hcap : stream.Capture = some c) : loopGuard s p = .ok stream := by
  simp [loopGuard, hd, hdone, hcap]

theorem frameLoop_failed (p : Nat) (stream : CameraStream) (c : VideoCapture) :
    ∀ (n consecutiveErrors : Nat) (s : State),
      s.deref p = some stream →
      s.isDone stream.Context = false →
      stream.Capture = some c →
      consecutiveErrors + n + 1 = maxConsecutiveErrors →
      frameLoop p (List.replicate (n + 1) ReadOutcome.failed) consecutiveErrors s =
        ({ s with trace := s.trace ++ List.replicate n (Event.sleep 100) },
          LoopStatus.tooManyErrors) := by
  intro n
  induction n with
  | zero =>
    intro ce s hd hdone hcap hce
    have hge : ce + 1 ≥ maxConsecutiveErrors := by omega
    simp [frameLoop, loopGuard_ok s p stream c hd hdone hcap, hge]
  | succ n ih =>
    intro ce s hd hdone hcap hce
    have hlt : ¬ (ce + 1 ≥ maxConsecutiveErrors) := by omega
    have hdone' : (s.emit (Event.sleep 100)).isDone stream.Context = false := by
      simp only [State.isDone, emit_trace] at hdone ⊢
      simpa using hdone
    have := ih (ce + 1) (s.emit (Event.sleep 100)) (by simpa using hd) hdone' hcap (by omega)
    rw [List.replicate_succ, frameLoop]
    simp only [loopGuard_ok s p stream c hd hdone hcap, hlt, if_false]
    rw [this]
    simp [State.emit, List.replicate_succ]

/-- Ten failed reads in a row on a live session: `processStream` returns,
having closed the capture handle once, and does not touch the registry. -/
theorem processStream_ten_failed (s : State) (p : Nat) (stream : CameraStream)
    (c : VideoCapture)
    (hd : s.deref p = some stream) (hdone : s.isDone stream.Context = false)
    (hcap : stream.Capture = some c) :
    (processStream s p (List.replicate 10 ReadOutcome.failed)).2 = LoopStatus.tooManyErrors ∧
    (processStream s p (List.replicate 10 ReadOutcome.failed)).1.streams = s.streams ∧
    (processStream s p (List.replicate 10 ReadOutcome.failed)).1.trace =
      s.trace ++ List.replicate 9 (Event.sleep 100) ++ [Event.capClose c.id] := by
  have h : frameLoop p (List.replicate 10 ReadOutcome.failed) 0 s =
      ({ s with trace := s.trace ++ List.replicate 9 (Event.sleep 100) },
        LoopStatus.tooManyErrors) :=
    frameLoop_failed p stream c 9 0 s hd hdone hcap (by decide)
  simp only [processStream, resumeStream]
  rw [h]
  simp only [deferredClose, deref_with_trace, hd, hcap]
  simp [State.emit]

/-- After `StopStream` of a registered session that holds a capture handle,
the frame loop leaves through the cancellation case and its deferred
function closes the handle again. -/
theorem processStream_after_stop (s : State) (cameraID : String) (p : Nat)
    (stream : CameraStream) (c : VideoCapture) (reads : List ReadOutcome)
    (consecutiveErrors : Nat)
    (hp : mapGet s.streams cameraID = some p) (hd : s.deref p = some stream)
    (hcap : stream.Capture = some c) :
    (resumeStream (StopStream s cameraID).1 p consecutiveErrors reads).2 = LoopStatus.cancelled ∧
    captureCloses (resumeStream (StopStream s cameraID).1 p consecutiveErrors reads).1.trace c.id =
      captureCloses s.trace c.id + 2 := by
  obtain ⟨_, _, _, _, htrace, hderef⟩ := StopStream_registered s cameraID p stream hp hd
  have hdone : (StopStream s cameraID).1.isDone stream.Context = true := by
    simp [State.isDone, htrace]
  have hloop : frameLoop p reads consecutiveErrors (StopStream s cameraID).1 =
      ((StopStream s cameraID).1, LoopStatus.cancelled) := by
    cases reads <;> simp [frameLoop, loopGuard, hderef, hdone]
  simp only [resumeStream, hloop, deferredClose, hderef, hcap, emit_trace, htrace]
  simp [captureCloses, stopPublisherEvents_count_capClose, List.count_cons]

/-! ### Well-formedness is preserved -/

theorem StartStream_WF (s : State) (env : StartEnv) (camera : Camera) (h : s.WF) :
    (StartStream s env camera).1.WF := by
  cases hres : (StartStream s env camera).2 with
  | some e =>
    obtain ⟨h1, h2, _⟩ := StartStream_err_frame s env camera e hres
    unfold State.WF
    rw [h1, h2]
    exact h
  | none =>
    obtain ⟨hcap, hnew, hurl, hopen⟩ := StartStream_ok_inv s env camera hres
    obtain ⟨_, hstr, _, hlen⟩ := StartStream_ok s env camera hcap hnew hurl hopen
    unfold State.WF
    rw [hstr, hlen]
    refine ⟨?_, ?_⟩
    · simp only [mapSet, mapDelete_of_not_mem hnew, mapKeys, List.map_cons, List.nodup_cons]
      exact ⟨hnew, h.1⟩
    · intro e he
      simp only [mapSet, mapDelete_of_not_mem hnew, List.mem_cons] at he
      rcases he with rfl | he
      · exact Nat.lt_succ_self _
      · exact Nat.lt_succ_of_lt (h.2 e he)

theorem stop_then_start (s : State) (cameraID : String) (camera : Camera) (env : StartEnv)
    (hwf : s.WF)
    (hfull : (s.streams.length : Int) = s.config.MaxStreams)
    (hreg : cameraID ∈ mapKeys s.streams)
    (hnew : camera.ID ∉ mapKeys (StopStream s cameraID).1.streams)
    (hurl : camera.RTSPURL ≠ "")
    (hopen : SourceOpens env.opens) :
    (StopStream s cameraID).2 = none ∧
    (StartStream (StopStream s cameraID).1 env camera).2 = none ∧
    camera.ID ∈ mapKeys (StartStream (StopStream s cameraID).1 env camera).1.streams := by
  have hsome : (mapGet s.streams cameraID).isSome = true := (mapGet_isSome_iff _ _).2 hreg
  obtain ⟨p, hp⟩ := Option.isSome_iff_exists.mp hsome
  obtain ⟨stream, hd⟩ := deref_of_lt s (hwf.2 _ (mapGet_mem hp))
  obtain ⟨hres, hstreams, hcfg, _, _, _⟩ := StopStream_registered s cameraID p stream hp hd
  have hcap : ((StopStream s cameraID).1.streams.length : Int) <
      (StopStream s cameraID).1.config.MaxStreams := by
    rw [hstreams, hcfg, ← hfull]
    exact_mod_cast mapDelete_length_lt hreg
  obtain ⟨hok, hstr, _, _⟩ := StartStream_ok _ env camera hcap hnew hurl hopen
  refine ⟨hres, hok, ?_⟩
  rw [hstr, mem_mapKeys_mapSet]
  exact Or.inl rfl

/-! ### Publisher teardown -/

theorem list_set_same {α : Type} : ∀ (l : List α) (i : Nat) (x : α), l[i]? = some x →
    l.set i x = l := by
  intro l
  induction l with
  | nil => intro i x h; simp at h
  | cons a rest ih =>
    intro i x h
    cases i with
    | zero => simp at h; simp [h]
    | succ i => simp at h; simp [ih i x h]

theorem store_same (s : State) (p : Nat) (x : CameraStream) (h : s.deref p = some x) :
    s.store p x = s := by
  unfold State.store
  rw [list_set_same s.heap p x h]

theorem stopPublisher_idem (s : State) (p : Nat) :
    stopPublisher (stopPublisher s p) p = stopPublisher s p := by
  cases hd : s.deref p with
  | none => simp [stopPublisher, hd]
  | some stream =>
    have hd' := stopPublisher_deref s p stream hd
    generalize stopPublisher s p = s' at hd' ⊢
    unfold stopPublisher
    rw [hd']
    simp only
    exact store_same s' p _ hd'

theorem stopPublisherEvents_count_le (stream : CameraStream) (q : Nat) :
    (stopPublisherEvents stream).count (Event.pipeClose q) ≤ 1 ∧
    (stopPublisherEvents stream).count (Event.procWait q) ≤ 1 := by
  unfold stopPublisherEvents
  refine ⟨?_, ?_⟩ <;> cases stream.ffmpegIn <;> cases stream.ffmpegCmd <;>
    simp [List.count_cons] <;> split_ifs <;> simp

/-! ### The open-retry loop, event by event -/

theorem openLoop_events (opens : Nat → OpenOutcome) (camera : Camera) (ctx : Nat) (s : State) :
    (openLoop opens camera ctx 3 0 none s).1.trace =
        s.trace ++ newEvents s (openLoop opens camera ctx 3 0 none s).1 ∧
    openAttempts (newEvents s (openLoop opens camera ctx 3 0 none s).1) ≤ 3 ∧
    (handlesObtained (newEvents s (openLoop opens camera ctx 3 0 none s).1)).Nodup := by
  rcases h0 : opens 0 with ⟨c0, _ | b0⟩ | (_ | _) <;>
  rcases h1 : opens 1 with ⟨c1, _ | b1⟩ | (_ | _) <;>
  rcases h2 : opens 2 with ⟨c2, _ | b2⟩ | (_ | _) <;>
  simp [openLoop, h0, h1, h2, newEvents, openAttempts, handlesObtained]
  all_goals omega

set_option maxHeartbeats 3200000 in
theorem openLoop_accepts (opens : Nat → OpenOutcome) (camera : Camera) (ctx : Nat) (s : State) :
    ∀ i, firstOpened opens = some i →
      ∃ c, (openLoop opens camera ctx 3 0 none s).2 = .finished (some c) ∧
        c.opened = true ∧
        openAttempts (newEvents s (openLoop opens camera ctx 3 0 none s).1) = i + 1 ∧
        c.id ∈ handlesOpenedOk (newEvents s (openLoop opens camera ctx 3 0 none s).1) ∧
        captureCloses (newEvents s (openLoop opens camera ctx 3 0 none s).1) c.id = 0 ∧
        (∀ h ∈ handlesOpenedOk (newEvents s (openLoop opens camera ctx 3 0 none s).1),
          h ≠ c.id →
          captureCloses (newEvents s (openLoop opens camera ctx 3 0 none s).1) h = 1) ∧
        (∀ h ∈ handlesWithError (newEvents s (openLoop opens camera ctx 3 0 none s).1),
          captureCloses (newEvents s (openLoop opens camera ctx 3 0 none s).1) h = 0) ∧
        Event.ctxCancel ctx ∉ newEvents s (openLoop opens camera ctx 3 0 none s).1 := by
  rcases h0 : opens 0 with ⟨c0, _ | b0⟩ | (_ | _) <;>
  rcases h1 : opens 1 with ⟨c1, _ | b1⟩ | (_ | _) <;>
  rcases h2 : opens 2 with ⟨c2, _ | b2⟩ | (_ | _) <;>
  simp [openLoop, h0, h1, h2, newEvents, openAttempts, handlesOpenedOk, handlesWithError,
    firstOpened, captureCloses, List.count_cons]
  all_goals omega

set_option maxHeartbeats 3200000 in
theorem openLoop_exhausted (opens : Nat → OpenOutcome) (camera : Camera) (ctx : Nat) (s : State)
    (hnone : firstOpened opens = none) :
    openAttempts (newEvents s (openLoop opens camera ctx 3 0 none s).1) = 3 ∧
    (∀ h ∈ handlesWithError (newEvents s (openLoop opens camera ctx 3 0 none s).1),
      captureCloses (newEvents s (openLoop opens camera ctx 3 0 none s).1) h = 0) ∧
    ((∃ cause, (openLoop opens camera ctx 3 0 none s).2 =
          .returned (.openFailedWith camera.ID cause) ∧
        Event.ctxCancel ctx ∈ newEvents s (openLoop opens camera ctx 3 0 none s).1 ∧
        ∀ h ∈ handlesOpenedOk (newEvents s (openLoop opens camera ctx 3 0 none s).1),
          captureCloses (newEvents s (openLoop opens camera ctx 3 0 none s).1) h = 1) ∨
     (∃ c, (openLoop opens camera ctx 3 0 none s).2 = .finished (some c) ∧
        c.opened = false ∧
        c.id ∈ handlesOpenedOk (newEvents s (openLoop opens camera ctx 3 0 none s).1) ∧
        c.id ∉ handlesWithError (newEvents s (openLoop opens camera ctx 3 0 none s).1) ∧
        captureCloses (newEvents s (openLoop opens camera ctx 3 0 none s).1) c.id = 0 ∧
        ∀ h ∈ handlesOpenedOk (newEvents s (openLoop opens camera ctx 3 0 none s).1),
          h ≠ c.id →
          captureCloses (newEvents s (openLoop opens camera ctx 3 0 none s).1) h = 1)) := by
  rcases h0 : opens 0 with ⟨c0, _ | b0⟩ | (_ | _) <;>
  rcases h1 : opens 1 with ⟨c1, _ | b1⟩ | (_ | _) <;>
  rcases h2 : opens 2 with ⟨c2, _ | b2⟩ | (_ | _) <;>
  first
  | (exfalso; simp [firstOpened, h0, h1, h2] at hnone; done)
  | simp [openLoop, h0, h1, h2, newEvents, openAttempts, handlesOpenedOk, handlesWithError,
      captureCloses, List.count_cons]
  all_goals omega

/-! ### Events of a whole `StartStream` call -/

theorem newEvents_of_trace (s t : State) (evs : List Event) (h : t.trace = s.trace ++ evs) :
    newEvents s t = evs := by
  simp [newEvents, h]

theorem openAttempts_append (a b : List Event) :
    openAttempts (a ++ b) = openAttempts a + openAttempts b := by
  simp [openAttempts, List.countP_append]

theorem handlesObtained_append (a b : List Event) :
    handlesObtained (a ++ b) = handlesObtained a ++ handlesObtained b := by
  simp [handlesObtained, List.filterMap_append]

theorem handlesOpenedOk_append (a b : List Event) :
    handlesOpenedOk (a ++ b) = handlesOpenedOk a ++ handlesOpenedOk b := by
  simp [handlesOpenedOk, List.filterMap_append]

theorem handlesWithError_append (a b : List Event) :
    handlesWithError (a ++ b) = handlesWithError a ++ handlesWithError b := by
  simp [handlesWithError, List.filterMap_append]

theorem captureCloses_append (a b : List Event) (h : Nat) :
    captureCloses (a ++ b) h = captureCloses a h + captureCloses b h := by
  simp [captureCloses, List.count_append]

theorem startPublisher_events (s : State) (env : PubEnv) (p : Nat) :
    (startPublisher s env p).1.trace = s.trace ++ newEvents s (startPublisher s env p).1 ∧
    openAttempts (newEvents s (startPublisher s env p).1) = 0 ∧
    handlesObtained (newEvents s (startPublisher s env p).1) = [] ∧
    handlesOpenedOk (newEvents s (startPublisher s env p).1) = [] ∧
    handlesWithError (newEvents s (startPublisher s env p).1) = [] ∧
    (∀ h, captureCloses (newEvents s (startPublisher s env p).1) h = 0) ∧
    (∀ c, Event.ctxCancel c ∉ newEvents s (startPublisher s env p).1) := by
  unfold startPublisher
  cases hd : s.deref p with
  | none =>
    simp [newEvents, openAttempts, handlesObtained, handlesOpenedOk, handlesWithError,
      captureCloses]
  | some stream =>
    simp only [buildRTSPPublishURL]
    cases env.hostname s.config.MediaMTXURL with
    | none =>
      simp [newEvents, openAttempts, handlesObtained, handlesOpenedOk, handlesWithError,
        captureCloses]
    | some u =>
      cases env.stderrPipeOk <;> cases env.stdinPipeOk <;> cases env.startOk <;>
        simp [State.store, State.emit, newEvents, openAttempts, handlesObtained,
          handlesOpenedOk, handlesWithError, captureCloses]

theorem startPublisher_capture (s : State) (env : PubEnv) (p : Nat) (stream : CameraStream)
    (hd : s.deref p = some stream) :
    ∃ stream', (startPublisher s env p).1.deref p = some stream' ∧
      stream'.Capture = stream.Capture := by
  have hlt := deref_lt hd
  unfold startPublisher
  rw [hd]
  simp only [buildRTSPPublishURL]
  cases env.hostname s.config.MediaMTXURL with
  | none => exact ⟨stream, hd, rfl⟩
  | some u =>
    cases env.stderrPipeOk <;> cases env.stdinPipeOk <;> cases env.startOk <;>
      simp [State.store, State.emit, State.deref, hlt]

theorem firstOpened_of_first (opens : Nat → OpenOutcome) (i : Nat) (hi : i < 3)
    (hopen : opens i = .handle true) (hfirst : ∀ j, j < i → opens j ≠ .handle true) :
    firstOpened opens = some i := by
  unfold firstOpened
  interval_cases i
  · simp [hopen]
  · simp [hopen, hfirst 0 (by decide)]
  · simp [hopen, hfirst 0 (by decide), hfirst 1 (by decide)]

theorem firstOpened_none_of_not_sourceOpens (opens : Nat → OpenOutcome)
    (h : ¬ SourceOpens opens) : firstOpened opens = none := by
  have n0 : opens 0 ≠ .handle true := fun e => h ⟨0, by decide, e⟩
  have n1 : opens 1 ≠ .handle true := fun e => h ⟨1, by decide, e⟩
  have n2 : opens 2 ≠ .handle true := fun e => h ⟨2, by decide, e⟩
  simp [firstOpened, n0, n1, n2]

theorem StartStream_of_loop_opened (s s2 : State) (env : StartEnv) (camera : Camera)
    (c : VideoCapture)
    (hcap : (s.streams.length : Int) < s.config.MaxStreams)
    (hnew : camera.ID ∉ mapKeys s.streams)
    (hurl : camera.RTSPURL ≠ "")
    (hL : openLoop env.opens camera s.fresh 3 0 none { s with fresh := s.fresh + 1 } =
      (s2, .finished (some c)))
    (hopened : c.opened = true) :
    StartStream s env camera =
      ((startPublisher (withSession s2 camera c s.fresh env.now) env.pub s2.heap.length).1.emit
        (.goProcessStream s2.heap.length), none) := by
  have hget : mapGet s.streams camera.ID = none := (mapGet_eq_none_iff _ _).2 hnew
  have hcap' : ¬ ((s.streams.length : Int) ≥ s.config.MaxStreams) := not_le.mpr hcap
  unfold StartStream
  simp only [hcap', hget, hurl, if_false, Option.isSome_none, Bool.false_eq_true]
  rw [hL]
  simp [hopened, withSession, sessionOf]

theorem openAttempts_go (p : Nat) : openAttempts [Event.goProcessStream p] = 0 := rfl

theorem handlesObtained_go (p : Nat) : handlesObtained [Event.goProcessStream p] = [] := rfl

theorem handlesOpenedOk_go (p : Nat) : handlesOpenedOk [Event.goProcessStream p] = [] := rfl

theorem handlesWithError_go (p : Nat) : handlesWithError [Event.goProcessStream p] = [] := rfl

theorem captureCloses_go (p h : Nat) : captureCloses [Event.goProcessStream p] h = 0 := by
  simp [captureCloses]

theorem StartStream_opened (s : State) (env : StartEnv) (camera : Camera) (i : Nat)
    (hcap : (s.streams.length : Int) < s.config.MaxStreams)
    (hnew : camera.ID ∉ mapKeys s.streams)
    (hurl : camera.RTSPURL ≠ "")
    (hfirst : firstOpened env.opens = some i) :
    (StartStream s env camera).2 = none ∧
    (StartStream s env camera).1.trace =
      s.trace ++ newEvents s (StartStream s env camera).1 ∧
    openAttempts (newEvents s (StartStream s env camera).1) = i + 1 ∧
    (handlesObtained (newEvents s (StartStream s env camera).1)).Nodup ∧
    ∃ stream c, mapGet (StartStream s env camera).1.streams camera.ID = some s.heap.length ∧
      (StartStream s env camera).1.deref s.heap.length = some stream ∧
      stream.Capture = some c ∧ c.opened = true ∧
      c.id ∈ handlesOpenedOk (newEvents s (StartStream s env camera).1) ∧
      captureCloses (newEvents s (StartStream s env camera).1) c.id = 0 ∧
      (∀ h ∈ handlesOpenedOk (newEvents s (StartStream s env camera).1), h ≠ c.id →
        captureCloses (newEvents s (StartStream s env camera).1) h = 1) ∧
      ∀ h ∈ handlesWithError (newEvents s (StartStream s env camera).1),
        captureCloses (newEvents s (StartStream s env camera).1) h = 0 := by
  obtain ⟨c, hexit, hopened, hatt, hmem, hcl0, hcl1, hclE, _⟩ :=
    openLoop_accepts env.opens camera s.fresh { s with fresh := s.fresh + 1 } i hfirst
  obtain ⟨htrL, _, hnodup⟩ :=
    openLoop_events env.opens camera s.fresh { s with fresh := s.fresh + 1 }
  obtain ⟨_, hf2, hf3⟩ :=
    openLoop_frame env.opens camera s.fresh 3 0 none { s with fresh := s.fresh + 1 }
  rcases hL : openLoop env.opens camera s.fresh 3 0 none { s with fresh := s.fresh + 1 }
    with ⟨s2, exit⟩
  rw [hL] at hexit hatt hmem hcl0 hcl1 hclE htrL hnodup hf2 hf3
  simp only at hexit htrL hf2 hf3
  subst hexit
  generalize hLdef : newEvents { s with fresh := s.fresh + 1 } s2 = L at *
  have hres := StartStream_of_loop_opened s s2 env camera c hcap hnew hurl hL hopened
  obtain ⟨hptr, hp0, hph, hpk, hpe, hpc, _⟩ :=
    startPublisher_events (withSession s2 camera c s.fresh env.now) env.pub s2.heap.length
  have hd3 : (withSession s2 camera c s.fresh env.now).deref s2.heap.length =
      some (sessionOf camera c s.fresh env.now) := by
    simp [withSession, State.deref]
  obtain ⟨stream', hd', hcap'⟩ := startPublisher_capture _ env.pub _ _ hd3
  generalize hPdef : newEvents (withSession s2 camera c s.fresh env.now)
    (startPublisher (withSession s2 camera c s.fresh env.now) env.pub s2.heap.length).1 = P at *
  have hev : newEvents s (StartStream s env camera).1 =
      L ++ P ++ [Event.goProcessStream s2.heap.length] := by
    apply newEvents_of_trace
    rw [hres]
    simp only [emit_trace, hptr]
    simp [withSession, htrL]
  have hstreams : (StartStream s env camera).1.streams =
      mapSet s.streams camera.ID s.heap.length := by
    rw [hres]
    simp [withSession, hf2, hf3]
  refine ⟨by rw [hres], ?_, ?_, ?_, stream', c, ?_, ?_, ?_, hopened, ?_, ?_, ?_, ?_⟩
  · rw [hev, hres]
    simp only [emit_trace, hptr]
    simp [withSession, htrL]
  · rw [hev]
    simp only [openAttempts_append, hatt, hp0, openAttempts_go]
  · rw [hev]
    simpa only [handlesObtained_append, hph, handlesObtained_go, List.append_nil] using hnodup
  · rw [hstreams]
    exact mapGet_mapSet_same _ _ _
  · rw [hres, ← hf3]
    simpa using hd'
  · rw [hcap']
    rfl
  · rw [hev]
    simpa only [handlesOpenedOk_append, hpk, handlesOpenedOk_go, List.append_nil] using hmem
  · rw [hev]
    simp only [captureCloses_append, hcl0, hpc, captureCloses_go]
  · intro h hh hne
    rw [hev] at hh ⊢
    have hh' : h ∈ handlesOpenedOk L := by
      simpa only [handlesOpenedOk_append, hpk, handlesOpenedOk_go, List.append_nil] using hh
    simp only [captureCloses_append, hcl1 h hh' hne, hpc, captureCloses_go]
  · intro h hh
    rw [hev] at hh ⊢
    have hh' : h ∈ handlesWithError L := by
      simpa only [handlesWithError_append, hpe, handlesWithError_go, List.append_nil] using hh
    simp only [captureCloses_append, hclE h hh', hpc, captureCloses_go]

theorem firstOpened_lt (opens : Nat → OpenOutcome) (i : Nat) (h : firstOpened opens = some i) :
    i < 3 := by
  unfold firstOpened at h
  split_ifs at h <;> simp at h <;> omega

theorem StartStream_exhausted (s : State) (env : StartEnv) (camera : Camera)
    (hcap : (s.streams.length : Int) < s.config.MaxStreams)
    (hnew : camera.ID ∉ mapKeys s.streams)
    (hurl : camera.RTSPURL ≠ "")
    (hnone : firstOpened env.opens = none) :
    (∃ e, (StartStream s env camera).2 = some e ∧ e.kind = ErrorKind.SourceUnreachable) ∧
    (StartStream s env camera).1.streams = s.streams ∧
    (StartStream s env camera).1.heap = s.heap ∧
    (StartStream s env camera).1.trace =
      s.trace ++ newEvents s (StartStream s env camera).1 ∧
    openAttempts (newEvents s (StartStream s env camera).1) = 3 ∧
    (handlesObtained (newEvents s (StartStream s env camera).1)).Nodup ∧
    Event.ctxCancel s.fresh ∈ newEvents s (StartStream s env camera).1 ∧
    (∀ h ∈ handlesOpenedOk (newEvents s (StartStream s env camera).1),
      captureCloses (newEvents s (StartStream s env camera).1) h = 1) ∧
    ∀ h ∈ handlesWithError (newEvents s (StartStream s env camera).1),
      captureCloses (newEvents s (StartStream s env camera).1) h = 0 := by
  have hget : mapGet s.streams camera.ID = none := (mapGet_eq_none_iff _ _).2 hnew
  have hcap' : ¬ ((s.streams.length : Int) ≥ s.config.MaxStreams) := not_le.mpr hcap
  obtain ⟨hatt, hclE, halt⟩ :=
    openLoop_exhausted env.opens camera s.fresh { s with fresh := s.fresh + 1 } hnone
  obtain ⟨htrL, _, hnodup⟩ :=
    openLoop_events env.opens camera s.fresh { s with fresh := s.fresh + 1 }
  obtain ⟨_, hf2, hf3⟩ :=
    openLoop_frame env.opens camera s.fresh 3 0 none { s with fresh := s.fresh + 1 }
  rcases hL : openLoop env.opens camera s.fresh 3 0 none { s with fresh := s.fresh + 1 }
    with ⟨s2, exit⟩
  rw [hL] at hatt hclE halt htrL hnodup hf2 hf3
  simp only at halt htrL hf2 hf3
  generalize hLdef : newEvents { s with fresh := s.fresh + 1 } s2 = L at *
  rcases halt with ⟨cause, hexit, hcancel, hcl⟩ | ⟨c, hexit, hclosed, hmem, hnotE, hcl0, hcl1⟩
  · subst hexit
    have hres : StartStream s env camera =
        (s2, some (StreamError.openFailedWith camera.ID cause)) := by
      unfold StartStream
      simp only [hcap', hget, hurl, if_false, Option.isSome_none, Bool.false_eq_true]
      rw [hL]
    have hev : newEvents s (StartStream s env camera).1 = L := by
      apply newEvents_of_trace
      rw [hres]
      exact htrL
    rw [hev]
    rw [hres]
    exact ⟨⟨StreamError.openFailedWith camera.ID cause, rfl, rfl⟩, hf2, hf3, htrL, hatt, hnodup,
      hcancel, hcl, hclE⟩
  · subst hexit
    have hres : StartStream s env camera =
        ((s2.emit (.ctxCancel s.fresh)).emit (.capClose c.id),
          some (StreamError.openFailed camera.ID)) := by
      unfold StartStream
      simp only [hcap', hget, hurl, if_false, Option.isSome_none, Bool.false_eq_true]
      rw [hL]
      simp [hclosed]
    have hev : newEvents s (StartStream s env camera).1 =
        L ++ [Event.ctxCancel s.fresh, Event.capClose c.id] := by
      apply newEvents_of_trace
      rw [hres]
      simp [htrL]
    have ha : openAttempts [Event.ctxCancel s.fresh, Event.capClose c.id] = 0 := rfl
    have hh : handlesObtained [Event.ctxCancel s.fresh, Event.capClose c.id] = [] := rfl
    have hk : handlesOpenedOk [Event.ctxCancel s.fresh, Event.capClose c.id] = [] := rfl
    have he : handlesWithError [Event.ctxCancel s.fresh, Event.capClose c.id] = [] := rfl
    have hc : ∀ h, captureCloses [Event.ctxCancel s.fresh, Event.capClose c.id] h =
        if c.id = h then 1 else 0 := by
      intro h
      simp [captureCloses, List.count_cons]
    rw [hev]
    refine ⟨⟨StreamError.openFailed camera.ID, by rw [hres], rfl⟩, by rw [hres]; exact hf2,
      by rw [hres]; exact hf3,
      ?_, ?_, ?_, ?_, ?_, ?_⟩
    · rw [hres]
      simp [htrL]
    · simp only [openAttempts_append, hatt, ha]
    · simpa only [handlesObtained_append, hh, List.append_nil] using hnodup
    · simp
    · intro h hmemh
      have hmemL : h ∈ handlesOpenedOk L := by
        simpa only [handlesOpenedOk_append, hk, List.append_nil] using hmemh
      by_cases heq : h = c.id
      · subst heq
        simp only [captureCloses_append, hcl0, hc, if_true]
      · have hne : ¬ c.id = h := fun e => heq e.symm
        simp only [captureCloses_append, hcl1 h hmemL heq, hc, hne, if_false]
    · intro h hmemh
      have hmemL : h ∈ handlesWithError L := by
        simpa only [handlesWithError_append, he, List.append_nil] using hmemh
      have hne : ¬ c.id = h := fun e => hnotE (e ▸ hmemL)
      simp only [captureCloses_append, hclE h hmemL, hc, hne, if_false]

/-- What the open phase of `StartStream` does for every sequence of open
outcomes, once the call is past its three guards: at most 3 attempts, and
the handles returned are pairwise distinct; if attempt `i` is the first to
return a nil error and an opened handle, `StartStream` succeeds after
exactly `i + 1` attempts with that handle stored in the registered session
and not closed; if there is no such attempt it makes exactly 3 attempts,
fails with an error of the SourceUnreachable class, leaves registry and
session objects unchanged and cancels the token it created.  In both cases
every other handle that came with a nil error has been closed exactly once,
and every handle that came together with an error has not been closed. -/
theorem StartStream_open_retry (s : State) (env : StartEnv) (camera : Camera)
    (hcap : (s.streams.length : Int) < s.config.MaxStreams)
    (hnew : camera.ID ∉ mapKeys s.streams)
    (hurl : camera.RTSPURL ≠ "") :
    (StartStream s env camera).1.trace =
      s.trace ++ newEvents s (StartStream s env camera).1 ∧
    openAttempts (newEvents s (StartStream s env camera).1) ≤ 3 ∧
    (handlesObtained (newEvents s (StartStream s env camera).1)).Nodup ∧
    (∀ h ∈ handlesWithError (newEvents s (StartStream s env camera).1),
      captureCloses (newEvents s (StartStream s env camera).1) h = 0) ∧
    (∀ i, i < 3 → env.opens i = .handle true → (∀ j, j < i → env.opens j ≠ .handle true) →
      (StartStream s env camera).2 = none ∧
      openAttempts (newEvents s (StartStream s env camera).1) = i + 1 ∧
      ∃ p stream c, mapGet (StartStream s env camera).1.streams camera.ID = some p ∧
        (StartStream s env camera).1.deref p = some stream ∧
        stream.Capture = some c ∧ c.opened = true ∧
        c.id ∈ handlesOpenedOk (newEvents s (StartStream s env camera).1) ∧
        captureCloses (newEvents s (StartStream s env camera).1) c.id = 0 ∧
        ∀ h ∈ handlesOpenedOk (newEvents s (StartStream s env camera).1), h ≠ c.id →
          captureCloses (newEvents s (StartStream s env camera).1) h = 1) ∧
    ((∀ i, i < 3 → env.opens i ≠ .handle true) →
      (∃ e, (StartStream s env camera).2 = some e ∧ e.kind = ErrorKind.SourceUnreachable) ∧
      (StartStream s env camera).1.streams = s.streams ∧
      (StartStream s env camera).1.heap = s.heap ∧
      openAttempts (newEvents s (StartStream s env camera).1) = 3 ∧
      Event.ctxCancel s.fresh ∈ newEvents s (StartStream s env camera).1 ∧
      ∀ h ∈ handlesOpenedOk (newEvents s (StartStream s env camera).1),
        captureCloses (newEvents s (StartStream s env camera).1) h = 1) := by
  have hgen : (StartStream s env camera).1.trace =
        s.trace ++ newEvents s (StartStream s env camera).1 ∧
      openAttempts (newEvents s (StartStream s env camera).1) ≤ 3 ∧
      (handlesObtained (newEvents s (StartStream s env camera).1)).Nodup ∧
      (∀ h ∈ handlesWithError (newEvents s (StartStream s env camera).1),
        captureCloses (newEvents s (StartStream s env camera).1) h = 0) := by
    cases hf : firstOpened env.opens with
    | none =>
      obtain ⟨_, _, _, h1, h2, h3, _, _, h5⟩ :=
        StartStream_exhausted s env camera hcap hnew hurl hf
      exact ⟨h1, by omega, h3, h5⟩
    | some i =>
      obtain ⟨_, h1, h2, h3, _, _, _, _, _, _, _, _, _, h5⟩ :=
        StartStream_opened s env camera i hcap hnew hurl hf
      have := firstOpened_lt env.opens i hf
      exact ⟨h1, by omega, h3, h5⟩
  refine ⟨hgen.1, hgen.2.1, hgen.2.2.1, hgen.2.2.2, ?_, ?_⟩
  · intro i hi hopen hfirst
    have hf := firstOpened_of_first env.opens i hi hopen hfirst
    obtain ⟨h0, _, h2, _, stream, c, h4, h5, h6, h7, h8, h9, h10, _⟩ :=
      StartStream_opened s env camera i hcap hnew hurl hf
    exact ⟨h0, h2, s.heap.length, stream, c, h4, h5, h6, h7, h8, h9, h10⟩
  · intro hno
    have hf : firstOpened env.opens = none :=
      firstOpened_none_of_not_sourceOpens env.opens (fun ⟨i, hi, h⟩ => hno i hi h)
    obtain ⟨h0, h1, h2, _, h4, _, h6, h7, _⟩ :=
      StartStream_exhausted s env camera hcap hnew hurl hf
    exact ⟨h0, h1, h2, h4, h6, h7⟩

/-- The open phase on a source that opens at the third attempt, after a
handle that is not opened (identity 1) and an error that comes with a
handle (identity 2): the call succeeds with handle 3, handle 1 has been
closed once, and handle 2 has not been closed. -/
theorem StartStream_open_retry_example :
    (StartStream (emptyState 4) envRetry (cam "A")).2 = none ∧
    openAttempts (StartStream (emptyState 4) envRetry (cam "A")).1.trace = 3 ∧
    handlesOpenedOk (StartStream (emptyState 4) envRetry (cam "A")).1.trace = [1, 3] ∧
    handlesWithError (StartStream (emptyState 4) envRetry (cam "A")).1.trace = [2] ∧
    captureCloses (StartStream (emptyState 4) envRetry (cam "A")).1.trace 1 = 1 ∧
    captureCloses (StartStream (emptyState 4) envRetry (cam "A")).1.trace 2 = 0 ∧
    captureCloses (StartStream (emptyState 4) envRetry (cam "A")).1.trace 3 = 0 := by
  decide

/-! ### Shutdown in `main` -/

theorem shutdownLoop_cons_capture (s : State) (entry : String × Nat)
    (rest : List (String × Nat)) (stream : CameraStream) (c : VideoCapture)
    (hd : s.deref entry.2 = some stream) (hc : stream.Capture = some c) :
    shutdownLoop s (entry :: rest) =
      shutdownLoop ((s.emit (.ctxCancel stream.Context)).emit (.capClose c.id)) rest := by
  simp [shutdownLoop, hd, hc]

theorem shutdownLoop_cons_no_capture (s : State) (entry : String × Nat)
    (rest : List (String × Nat)) (stream : CameraStream)
    (hd : s.deref entry.2 = some stream) (hc : stream.Capture = none) :
    shutdownLoop s (entry :: rest) = shutdownLoop (s.emit (.ctxCancel stream.Context)) rest := by
  simp [shutdownLoop, hd, hc]

theorem publisherStops_emit_cancel (s : State) (ctx : Nat) :
    publisherStops (s.emit (.ctxCancel ctx)).trace = publisherStops s.trace := by
  simp [publisherStops, List.countP_append]

theorem publisherStops_emit_close (s : State) (h : Nat) :
    publisherStops (s.emit (.capClose h)).trace = publisherStops s.trace := by
  simp [publisherStops, List.countP_append]

theorem shutdownLoop_frame : ∀ (entries : List (String × Nat)) (s : State),
    (shutdownLoop s entries).config = s.config ∧
    (shutdownLoop s entries).streams = s.streams ∧
    (shutdownLoop s entries).heap = s.heap ∧
    (shutdownLoop s entries).fresh = s.fresh ∧
    publisherStops (shutdownLoop s entries).trace = publisherStops s.trace := by
  intro entries
  induction entries with
  | nil => intro s; simp [shutdownLoop]
  | cons entry rest ih =>
    intro s
    cases hd : s.deref entry.2 with
    | none => simp [shutdownLoop, hd]
    | some stream =>
      cases hc : stream.Capture with
      | none =>
        rw [shutdownLoop_cons_no_capture s entry rest stream hd hc]
        obtain ⟨h1, h2, h3, h4, h5⟩ := ih (s.emit (.ctxCancel stream.Context))
        exact ⟨h1, h2, h3, h4, by rw [h5, publisherStops_emit_cancel]⟩
      | some c =>
        rw [shutdownLoop_cons_capture s entry rest stream c hd hc]
        obtain ⟨h1, h2, h3, h4, h5⟩ :=
          ih ((s.emit (.ctxCancel stream.Context)).emit (.capClose c.id))
        exact ⟨h1, h2, h3, h4,
          by rw [h5, publisherStops_emit_close, publisherStops_emit_cancel]⟩

theorem shutdownLoop_trace_mono : ∀ (entries : List (String × Nat)) (s : State) (e : Event),
    e ∈ s.trace → e ∈ (shutdownLoop s entries).trace := by
  intro entries
  induction entries with
  | nil => intro s e h; simpa [shutdownLoop] using h
  | cons entry rest ih =>
    intro s e h
    cases hd : s.deref entry.2 with
    | none => simpa [shutdownLoop, hd] using h
    | some stream =>
      cases hc : stream.Capture with
      | none =>
        rw [shutdownLoop_cons_no_capture s entry rest stream hd hc]
        exact ih _ e (by simp [h])
      | some c =>
        rw [shutdownLoop_cons_capture s entry rest stream c hd hc]
        exact ih _ e (by simp [h])

theorem shutdownLoop_cancels : ∀ (entries : List (String × Nat)) (s : State),
    (∀ e ∈ entries, e.2 < s.heap.length) →
    ∀ e ∈ entries, ∃ stream, s.deref e.2 = some stream ∧
      Event.ctxCancel stream.Context ∈ (shutdownLoop s entries).trace ∧
      ∀ c, stream.Capture = some c → Event.capClose c.id ∈ (shutdownLoop s entries).trace := by
  intro entries
  induction entries with
  | nil => intro s _ e he; simp at he
  | cons entry rest ih =>
    intro s hvalid e he
    obtain ⟨stream, hd⟩ := deref_of_lt s (hvalid entry (List.mem_cons_self _ _))
    have hrest : ∀ e ∈ rest, e.2 < s.heap.length :=
      fun e he => hvalid e (List.mem_cons_of_mem _ he)
    cases hc : stream.Capture with
    | none =>
      rw [shutdownLoop_cons_no_capture s entry rest stream hd hc]
      rcases List.mem_cons.mp he with rfl | hmem
      · refine ⟨stream, hd, shutdownLoop_trace_mono _ _ _ (by simp), ?_⟩
        intro c hc'
        rw [hc] at hc'
        exact absurd hc' (by simp)
      · obtain ⟨st, h1, h2, h3⟩ := ih (s.emit (.ctxCancel stream.Context)) hrest e hmem
        exact ⟨st, h1, h2, h3⟩
    | some c =>
      rw [shutdownLoop_cons_capture s entry rest stream c hd hc]
      rcases List.mem_cons.mp he with rfl | hmem
      · refine ⟨stream, hd, shutdownLoop_trace_mono _ _ _ (by simp), ?_⟩
        intro c' hc'
        rw [hc] at hc'
        cases hc'
        exact shutdownLoop_trace_mono _ _ _ (by simp)
      · obtain ⟨st, h1, h2, h3⟩ :=
          ih ((s.emit (.ctxCancel stream.Context)).emit (.capClose c.id)) hrest e hmem
        exact ⟨st, h1, h2, h3⟩

/-- In a well-formed state the shutdown of `main` cancels the token and
closes the capture handle of every registered session; in every state it
leaves the registry and the session objects as they are and makes no call
that stops a publisher. -/
theorem shutdownStreams_effect (s : State) :
    (shutdownStreams s).streams = s.streams ∧
    (shutdownStreams s).heap = s.heap ∧
    publisherStops (shutdownStreams s).trace = publisherStops s.trace ∧
    (s.WF → ∀ e ∈ s.streams, ∃ stream, s.deref e.2 = some stream ∧
      (shutdownStreams s).isDone stream.Context = true ∧
      ∀ c, stream.Capture = some c → Event.capClose c.id ∈ (shutdownStreams s).trace) := by
  obtain ⟨_, h2, h3, _, h5⟩ := shutdownLoop_frame s.streams s
  refine ⟨h2, h3, h5, ?_⟩
  intro hwf e he
  obtain ⟨stream, hd, hcancel, hclose⟩ := shutdownLoop_cancels s.streams s hwf.2 e he
  exact ⟨stream, hd, by simpa [State.isDone, shutdownStreams] using hcancel, hclose⟩

/-! ### Frame loop: counters -/

theorem isDone_emit_of_ne (s : State) (e : Event) (ctx : Nat) (h : e ≠ Event.ctxCancel ctx) :
    (s.emit e).isDone ctx = s.isDone ctx := by
  have h' : ¬ Event.ctxCancel ctx = e := fun x => h x.symm
  simp [State.isDone, List.contains_eq_any_beq, h']

@[simp] theorem isDone_store (s : State) (p : Nat) (x : CameraStream) (ctx : Nat) :
    (s.store p x).isDone ctx = s.isDone ctx := rfl

theorem handleFaceDetection_session (s : State) (p faces : Nat) (env : AlertEnv)
    (stream : CameraStream) (hd : s.deref p = some stream) :
    ∃ stream', (handleFaceDetection s p faces env).1.deref p = some stream' ∧
      stream'.FrameCount = stream.FrameCount ∧ stream'.Context = stream.Context ∧
      stream'.Capture = stream.Capture ∧
      ∀ ctx, (handleFaceDetection s p faces env).1.isDone ctx = s.isDone ctx := by
  have hlt := deref_lt hd
  by_cases hthr : env.since - stream.LastAlert < 5 * Second
  · rw [handleFaceDetection_suppressed s p faces env stream hd hthr]
    exact ⟨stream, hd, rfl, rfl, rfl, fun _ => rfl⟩
  · cases hs : env.snapshot with
    | error cause =>
      have heq : handleFaceDetection s p faces env =
          (s.store p { stream with LastAlert := env.now },
            some (StreamError.snapshotFailed cause)) := by
        unfold handleFaceDetection
        rw [hd]
        simp [timeSub_lt_iff, hthr, hs]
      rw [heq]
      exact ⟨{ stream with LastAlert := env.now }, store_deref_same s p _ hlt, rfl, rfl, rfl,
        fun _ => rfl⟩
    | ok url =>
      rw [handleFaceDetection_dispatched s p faces env stream url hd hthr hs]
      refine ⟨{ stream with LastAlert := env.now }, ?_, rfl, rfl, rfl, fun ctx => ?_⟩
      · rw [emit_deref]
        exact store_deref_same s p _ hlt
      · show (State.emit _ _).isDone ctx = _
        rw [isDone_emit_of_ne _ _ _ (by simp), isDone_store]

theorem processFrame_session (s : State) (p : Nat) (f : FrameEnv)
    (stream : CameraStream) (hd : s.deref p = some stream) :
    ∃ stream', (processFrame s p false false f).1.deref p = some stream' ∧
      stream'.FrameCount = stream.FrameCount ∧ stream'.Context = stream.Context ∧
      stream'.Capture = stream.Capture ∧
      ∀ ctx, (processFrame s p false false f).1.isDone ctx = s.isDone ctx := by
  by_cases hf : f.faces > 0
  · have heq : processFrame s p false false f = ((handleFaceDetection s p f.faces f.alert).1, none) := by
      simp [processFrame, hf]
    rw [heq]
    exact handleFaceDetection_session s p f.faces f.alert stream hd
  · have heq : processFrame s p false false f = (s, none) := by
      simp [processFrame, hf]
    rw [heq]
    exact ⟨stream, hd, rfl, rfl, rfl, fun _ => rfl⟩

theorem pushFrame_session (s : State) (p : Nat) (f : FrameEnv)
    (stream : CameraStream) (hd : s.deref p = some stream) :
    ∃ stream', (pushFrame s p f).deref p = some stream' ∧
      stream'.FrameCount = stream.FrameCount ∧ stream'.Context = stream.Context ∧
      stream'.Capture = stream.Capture ∧
      ∀ ctx, (pushFrame s p f).isDone ctx = s.isDone ctx := by
  have hlt := deref_lt hd
  have hsame : ∀ s', s' = s →
      ∃ stream', s'.deref p = some stream' ∧
        stream'.FrameCount = stream.FrameCount ∧ stream'.Context = stream.Context ∧
        stream'.Capture = stream.Capture ∧ ∀ ctx, s'.isDone ctx = s.isDone ctx := by
    intro s' h
    subst h
    exact ⟨stream, hd, rfl, rfl, rfl, fun _ => rfl⟩
  have hwrite : ∀ pipe,
      ∃ stream', (s.emit (.pipeWrite pipe)).deref p = some stream' ∧
        stream'.FrameCount = stream.FrameCount ∧ stream'.Context = stream.Context ∧
        stream'.Capture = stream.Capture ∧
        ∀ ctx, (s.emit (.pipeWrite pipe)).isDone ctx = s.isDone ctx :=
    fun pipe => ⟨stream, by simpa using hd, rfl, rfl, rfl,
      fun ctx => isDone_emit_of_ne _ _ _ (by simp)⟩
  cases hin : stream.ffmpegIn with
  | none => exact hsame _ (by simp [pushFrame, hd, hin])
  | some pipe =>
    cases hpub : stream.published with
    | false => exact hsame _ (by simp [pushFrame, hd, hin, hpub])
    | true =>
      cases henc : f.encodeOk with
      | false => exact hsame _ (by simp [pushFrame, hd, hin, hpub, henc])
      | true =>
        cases hw : f.write with
        | ok =>
          have heq : pushFrame s p f = s.emit (.pipeWrite pipe) := by
            simp [pushFrame, hd, hin, hpub, henc, hw]
          rw [heq]
          exact hwrite pipe
        | otherError =>
          have heq : pushFrame s p f = s.emit (.pipeWrite pipe) := by
            simp [pushFrame, hd, hin, hpub, henc, hw]
          rw [heq]
          exact hwrite pipe
        | closedPipe =>
          have heq : pushFrame s p f =
              ((s.emit (.pipeWrite pipe)).emit (.pipeClose pipe)).store p
                { stream with published := false, ffmpegIn := none } := by
            simp [pushFrame, hd, hin, hpub, henc, hw]
          rw [heq]
          refine ⟨{ stream with published := false, ffmpegIn := none },
            store_deref_same _ p _ hlt, rfl, rfl, rfl, fun ctx => ?_⟩
          rw [isDone_store, isDone_emit_of_ne _ _ _ (by simp),
            isDone_emit_of_ne _ _ _ (by simp)]

theorem wrapInt64_of_range (x : Int) (hlo : -9223372036854775808 ≤ x)
    (hhi : x < 9223372036854775808) : wrapInt64 x = x := by
  unfold wrapInt64
  omega

@[simp] theorem backToBackFailed_nil : backToBackFailed [] = 0 := rfl

theorem backToBackFailed_failed (pre : List ReadOutcome) :
    backToBackFailed (pre ++ [ReadOutcome.failed]) = backToBackFailed pre + 1 := by
  simp [backToBackFailed, List.takeWhile, ReadOutcome.isFailed]

theorem backToBackFailed_empty (pre : List ReadOutcome) :
    backToBackFailed (pre ++ [ReadOutcome.empty]) = 0 := by
  simp [backToBackFailed, List.takeWhile, ReadOutcome.isFailed]

theorem backToBackFailed_frame (pre : List ReadOutcome) (f : FrameEnv) :
    backToBackFailed (pre ++ [ReadOutcome.frame f]) = 0 := by
  simp [backToBackFailed, List.takeWhile, ReadOutcome.isFailed]

theorem framesRead_cons (r : ReadOutcome) (rest : List ReadOutcome) :
    framesRead (r :: rest) = (if r.isFrame then 1 else 0) + framesRead rest := by
  simp [framesRead, List.countP_cons, Nat.add_comm]

theorem framesRead_take_le (reads : List ReadOutcome) (k : Nat) :
    framesRead (reads.take k) ≤ framesRead reads :=
  (List.take_sublist k reads).countP_le _

theorem framesRead_take_mono (reads : List ReadOutcome) {j k : Nat} (h : j ≤ k) :
    framesRead (reads.take j) ≤ framesRead (reads.take k) := by
  have : reads.take j = (reads.take k).take j := by
    rw [List.take_take, min_eq_left h]
  rw [this]
  exact framesRead_take_le _ _

theorem frameLoop_running (p : Nat) (c : VideoCapture) :
    ∀ (reads pre : List ReadOutcome) (s : State) (stream : CameraStream),
      s.deref p = some stream →
      s.isDone stream.Context = false →
      stream.Capture = some c →
      (∀ k, backToBackFailed (pre ++ reads.take k) < maxConsecutiveErrors) →
      0 ≤ stream.FrameCount →
      stream.FrameCount + framesRead reads < 9223372036854775808 →
      ∃ s' stream',
        frameLoop p reads (backToBackFailed pre) s =
          (s', LoopStatus.running (backToBackFailed (pre ++ reads))) ∧
        s'.deref p = some stream' ∧
        s'.isDone stream'.Context = false ∧
        stream'.Capture = some c ∧
        stream'.FrameCount = stream.FrameCount + framesRead reads := by
  intro reads
  induction reads with
  | nil =>
    intro pre s stream hd hdone hcap _ _ _
    refine ⟨s, stream, ?_, hd, hdone, hcap, by simp [framesRead]⟩
    rw [frameLoop, loopGuard_ok s p stream c hd hdone hcap]
    simp
  | cons r rest ih =>
    intro pre s stream hd hdone hcap hrun hlo hhi
    have hrun' : ∀ k, backToBackFailed ((pre ++ [r]) ++ rest.take k) < maxConsecutiveErrors := by
      intro k
      have := hrun (k + 1)
      simpa [List.take_succ_cons] using this
    have hlast : backToBackFailed ((pre ++ [r]) ++ rest) = backToBackFailed (pre ++ r :: rest) := by
      simp
    cases r with
    | failed =>
      have h1 : backToBackFailed (pre ++ [ReadOutcome.failed]) < maxConsecutiveErrors := by
        simpa using hrun 1
      rw [backToBackFailed_failed] at h1
      have hnot : ¬ (backToBackFailed pre + 1 ≥ maxConsecutiveErrors) := not_le.mpr h1
      have hdone' : (s.emit (Event.sleep 100)).isDone stream.Context = false := by
        rw [isDone_emit_of_ne _ _ _ (by simp)]; exact hdone
      obtain ⟨s', stream', heq, h2, h3, h4, h5⟩ :=
        ih (pre ++ [ReadOutcome.failed]) (s.emit (Event.sleep 100)) stream
          (by simpa using hd) hdone' hcap hrun' hlo
          (by simpa [framesRead_cons, ReadOutcome.isFrame] using hhi)
      refine ⟨s', stream', ?_, h2, h3, h4, ?_⟩
      · rw [frameLoop, loopGuard_ok s p stream c hd hdone hcap]
        simp only [hnot, if_false]
        rw [← backToBackFailed_failed, heq, hlast]
      · rw [h5]; simp [framesRead_cons, ReadOutcome.isFrame]
    | empty =>
      obtain ⟨s', stream', heq, h2, h3, h4, h5⟩ :=
        ih (pre ++ [ReadOutcome.empty]) s stream hd hdone hcap hrun' hlo
          (by simpa [framesRead_cons, ReadOutcome.isFrame] using hhi)
      refine ⟨s', stream', ?_, h2, h3, h4, ?_⟩
      · rw [frameLoop, loopGuard_ok s p stream c hd hdone hcap]
        simp only
        rw [← backToBackFailed_empty pre, heq, hlast]
      · rw [h5]; simp [framesRead_cons, ReadOutcome.isFrame]
    | frame f =>
      have hcount : framesRead (ReadOutcome.frame f :: rest) = 1 + framesRead rest := by
        simp [framesRead_cons, ReadOutcome.isFrame]
      rw [hcount] at hhi
      have hwrap : wrapInt64 (stream.FrameCount + 1) = stream.FrameCount + 1 :=
        wrapInt64_of_range _ (by omega) (by push_cast at hhi; omega)
      have hlt := deref_lt hd
      have hd1 : (s.store p { stream with FrameCount := wrapInt64 (stream.FrameCount + 1) }).deref p =
          some { stream with FrameCount := wrapInt64 (stream.FrameCount + 1) } :=
        store_deref_same s p _ hlt
      obtain ⟨stream2, hd2, hfc2, hctx2, hcap2, hdone2⟩ := processFrame_session _ p f _ hd1
      obtain ⟨stream3, hd3, hfc3, hctx3, hcap3, hdone3⟩ := pushFrame_session _ p f _ hd2
      have hfc : stream3.FrameCount = stream.FrameCount + 1 := by
        rw [hfc3, hfc2]; exact hwrap
      obtain ⟨s', stream', heq, h2, h3, h4, h5⟩ :=
        ih (pre ++ [ReadOutcome.frame f]) _ stream3 hd3
          (by rw [hdone3, hdone2, hctx3, hctx2]; exact hdone)
          (by rw [hcap3, hcap2]; exact hcap) hrun'
          (by rw [hfc]; omega) (by rw [hfc]; push_cast at hhi ⊢; omega)
      refine ⟨s', stream', ?_, h2, h3, h4, ?_⟩
      · rw [frameLoop, loopGuard_ok s p stream c hd hdone hcap]
        simp only
        rw [← backToBackFailed_frame pre f, heq, hlast]
      · rw [h5, hfc, hcount]; push_cast; omega

theorem frameLoop_append_running (p : Nat) :
    ∀ (a b : List ReadOutcome) (ce n : Nat) (s s' : State),
      frameLoop p a ce s = (s', LoopStatus.running n) →
      frameLoop p (a ++ b) ce s = frameLoop p b n s' := by
  intro a
  induction a with
  | nil =>
    intro b ce n s s' h
    rw [frameLoop] at h
    cases hg : loopGuard s p with
    | error status =>
      rw [hg] at h
      simp only [Prod.mk.injEq] at h
      obtain ⟨_, hst⟩ := h
      subst hst
      simp [loopGuard] at hg
      split at hg
      · simp at hg
      · split_ifs at hg <;> simp at hg
    | ok stream =>
      rw [hg] at h
      simp only [Prod.mk.injEq, LoopStatus.running.injEq] at h
      obtain ⟨rfl, rfl⟩ := h
      rfl
  | cons r rest ih =>
    intro b ce n s s' h
    rw [frameLoop] at h
    rw [List.cons_append, frameLoop]
    cases hg : loopGuard s p with
    | error status =>
      rw [hg] at h
      simp only [Prod.mk.injEq] at h
      obtain ⟨_, hst⟩ := h
      subst hst
      simp [loopGuard] at hg
      split at hg
      · simp at hg
      · split_ifs at hg <;> simp at hg
    | ok stream =>
      rw [hg] at h
      simp only at h ⊢
      cases r with
      | failed =>
        simp only at h ⊢
        by_cases hge : ce + 1 ≥ maxConsecutiveErrors
        · simp [hge] at h
        · simp only [hge, if_false] at h ⊢
          exact ih b _ n _ s' h
      | empty => exact ih b _ n _ s' h
      | frame f => exact ih b _ n _ s' h

theorem processStream_of_running (s s' : State) (p n : Nat) (reads : List ReadOutcome)
    (h : frameLoop p reads 0 s = (s', LoopStatus.running n)) :
    processStream s p reads = (s', LoopStatus.running n) := by
  simp [processStream, resumeStream, h]

theorem backToBackFailed_le_length (reads : List ReadOutcome) :
    backToBackFailed reads ≤ reads.length := by
  unfold backToBackFailed
  exact le_trans (List.takeWhile_sublist _).length_le (by simp)

theorem processStream_tenth_failure (s : State) (p : Nat) (stream : CameraStream)
    (c : VideoCapture) (reads : List ReadOutcome)
    (hd : s.deref p = some stream) (hdone : s.isDone stream.Context = false)
    (hcap : stream.Capture = some c)
    (hrun : ∀ k, backToBackFailed (reads.take k) < maxConsecutiveErrors)
    (hlo : 0 ≤ stream.FrameCount)
    (hhi : stream.FrameCount + framesRead reads < 9223372036854775808)
    (hnine : backToBackFailed reads + 1 = maxConsecutiveErrors) :
    (processStream s p (reads ++ [ReadOutcome.failed])).2 = LoopStatus.tooManyErrors := by
  obtain ⟨s', stream', heq, h2, h3, h4, _⟩ :=
    frameLoop_running p c reads [] s stream hd hdone hcap (by simpa using hrun) hlo hhi
  simp only [List.nil_append] at heq
  have happ := frameLoop_append_running p reads [ReadOutcome.failed] 0 _ s s'
    (by simpa using heq)
  have hge : backToBackFailed reads + 1 ≥ maxConsecutiveErrors := by omega
  have hlast : frameLoop p [ReadOutcome.failed] (backToBackFailed reads) s' =
      (s', LoopStatus.tooManyErrors) := by
    rw [frameLoop, loopGuard_ok s' p stream' c h2 h3 h4]
    simp [hge]
  simp [processStream, resumeStream, happ, hlast]

/-! ## Claims -/

/-- C1 (as stated, refuted): with capacity 1, the first `StartStream` of a
camera succeeds and fills the registry, so the second `StartStream` with
the same id is rejected by the capacity check, which comes first, and the
error is the capacity error, not the already-exists error. -/
theorem C1_second_start_capacity_error :
    (StartStream (emptyState 1) envOk (cam "A")).2 = none ∧
    (StartStream (StartStream (emptyState 1) envOk (cam "A")).1 envOk (cam "A")).2 =
      some (StreamError.maxStreams 1) ∧
    (StartStream (StartStream (emptyState 1) envOk (cam "A")).1 envOk (cam "A")).2 ≠
      some (StreamError.alreadyExists "A") := by
  decide

/-- C1 (amended): if `StartStream` of a camera succeeds, an immediately
following `StartStream` with the same camera id fails and leaves the whole
state (registry, session objects, trace of external calls) exactly as it
was; the error is the already-exists error when the registry is still
below capacity, and the capacity error when the first call filled it. -/
theorem C1_second_start_fails (s : State) (env env2 : StartEnv) (camera camera2 : Camera)
    (hid : camera2.ID = camera.ID)
    (h : (StartStream s env camera).2 = none) :
    StartStream (StartStream s env camera).1 env2 camera2 =
      ((StartStream s env camera).1,
        some (if ((StartStream s env camera).1.streams.length : Int) <
                  (StartStream s env camera).1.config.MaxStreams
              then StreamError.alreadyExists camera.ID
              else StreamError.maxStreams (StartStream s env camera).1.config.MaxStreams)) := by
  obtain ⟨hcap, hnew, hurl, hopen⟩ := StartStream_ok_inv s env camera h
  obtain ⟨_, hstreams, _, _⟩ := StartStream_ok s env camera hcap hnew hurl hopen
  have hget : mapGet (StartStream s env camera).1.streams camera.ID = some s.heap.length := by
    rw [hstreams]; exact mapGet_mapSet_same _ _ _
  generalize StartStream s env camera = r at hget ⊢
  unfold StartStream
  by_cases hc : (r.1.streams.length : Int) ≥ r.1.config.MaxStreams
  · simp [hc, not_lt.mpr hc]
  · simp [hc, not_le.mp hc, hid, hget]

/-- Witness of C1 (amended): camera "A" started twice on a manager of
capacity 4. -/
theorem C1_second_start_fails_witness :
    (cam "A").ID = (cam "A").ID ∧
    (StartStream (emptyState 4) envOk (cam "A")).2 = none ∧
    StartStream (StartStream (emptyState 4) envOk (cam "A")).1 envOk (cam "A") =
      ((StartStream (emptyState 4) envOk (cam "A")).1,
        some (if ((StartStream (emptyState 4) envOk (cam "A")).1.streams.length : Int) <
                  (StartStream (emptyState 4) envOk (cam "A")).1.config.MaxStreams
              then StreamError.alreadyExists (cam "A").ID
              else StreamError.maxStreams
                (StartStream (emptyState 4) envOk (cam "A")).1.config.MaxStreams)) :=
  ⟨rfl, by decide,
    C1_second_start_fails (emptyState 4) envOk envOk (cam "A") (cam "A") rfl (by decide)⟩

/-- C2: on a registry that starts empty with capacity `MaxStreams = m`,
for calls with pairwise distinct ids, non-empty URLs and sources that
open, the `k`-th `StartStream` (counting from 0) succeeds and registers
its camera when `k < m`, and when `m ≤ k` it fails with the capacity error
and leaves the state as it was; before and after every call the registry
holds at most `m` sessions. -/
theorem C2_starts_beyond_capacity (m : Nat) (s : State) (calls : List (Camera × StartEnv))
    (hempty : s.streams = [])
    (hmax : s.config.MaxStreams = (m : Int))
    (hids : (calls.map (fun c => c.1.ID)).Nodup)
    (hurl : ∀ c ∈ calls, c.1.RTSPURL ≠ "")
    (hopen : ∀ c ∈ calls, SourceOpens c.2.opens)
    (k : Nat) (hk : k < calls.length) :
    (startMany s (calls.take k)).streams.length ≤ m ∧
    (StartStream (startMany s (calls.take k)) calls[k].2 calls[k].1).1.streams.length ≤ m ∧
    (k < m →
      (StartStream (startMany s (calls.take k)) calls[k].2 calls[k].1).2 = none ∧
      calls[k].1.ID ∈
        mapKeys (StartStream (startMany s (calls.take k)) calls[k].2 calls[k].1).1.streams) ∧
    (m ≤ k →
      StartStream (startMany s (calls.take k)) calls[k].2 calls[k].1 =
        (startMany s (calls.take k), some (StreamError.maxStreams m)) ∧
      (StreamError.maxStreams m).kind = ErrorKind.CapacityExceeded) := by
  obtain ⟨hcfg, hlen, hfresh⟩ := startMany_capacity m calls s hmax (by simp [hempty]) hids
    (by simp [hempty, mapKeys]) hurl hopen k hk
  simp only [hempty, List.length_nil, zero_add] at hlen
  have hmem : calls[k] ∈ calls := List.getElem_mem _
  by_cases hkm : k < m
  · have hpre : (startMany s (calls.take k)).streams.length = k := by
      rw [hlen]; exact min_eq_left hkm.le
    have hcap : ((startMany s (calls.take k)).streams.length : Int) <
        (startMany s (calls.take k)).config.MaxStreams := by
      rw [hcfg, hpre]; exact_mod_cast hkm
    obtain ⟨hres, hstr, _, _⟩ := StartStream_ok _ calls[k].2 calls[k].1 hcap hfresh
      (hurl _ hmem) (hopen _ hmem)
    refine ⟨by omega, ?_, fun _ => ⟨hres, ?_⟩, fun h => absurd hkm (not_lt.mpr h)⟩
    · rw [hstr, mapSet_length_of_not_mem _ hfresh]; omega
    · rw [hstr, mem_mapKeys_mapSet]; exact Or.inl rfl
  · have hpre : (startMany s (calls.take k)).streams.length = m := by
      rw [hlen]; exact min_eq_right (not_lt.mp hkm)
    have hstay := StartStream_at_capacity (startMany s (calls.take k)) calls[k].2 calls[k].1
      (by rw [hcfg, hpre])
    rw [hcfg] at hstay
    refine ⟨by omega, ?_, fun h => absurd h hkm, fun _ => ⟨hstay, rfl⟩⟩
    rw [hstay]; simp [hpre]

/-- Witness of C2: capacity 2 and the three calls "A", "B", "C"; the third
call (index 2) is beyond capacity, fails with the capacity error and
changes nothing. -/
theorem C2_starts_beyond_capacity_witness :
    StartStream
      (startMany (emptyState 2) ([(cam "A", envOk), (cam "B", envOk), (cam "C", envOk)].take 2))
      envOk (cam "C") =
      (startMany (emptyState 2)
        ([(cam "A", envOk), (cam "B", envOk), (cam "C", envOk)].take 2),
        some (StreamError.maxStreams ((2 : Nat) : Int))) ∧
    (StreamError.maxStreams ((2 : Nat) : Int)).kind = ErrorKind.CapacityExceeded :=
  (C2_starts_beyond_capacity 2 (emptyState 2)
    [(cam "A", envOk), (cam "B", envOk), (cam "C", envOk)] rfl rfl (by decide)
    (by decide) (by
      intro c hc
      simp only [List.mem_cons, List.mem_singleton, List.not_mem_nil, or_false] at hc
      rcases hc with rfl | rfl | rfl <;> exact ⟨0, by decide, rfl⟩) 2 (by decide)).2.2.2
    (le_refl 2)

/-- C3: for an id that is not a key of the registry, `StopStream` returns
the not-found error and the state after the call equals the state before
it: the registry and every session object are unchanged and no external
call (cancel, capture close, pipe close, signal, wait) was made. -/
theorem C3_stop_unknown_id (s : State) (cameraID : String)
    (h : cameraID ∉ mapKeys s.streams) :
    StopStream s cameraID = (s, some (StreamError.notFound cameraID)) ∧
    (StreamError.notFound cameraID).kind = ErrorKind.NotFound := by
  have hget : mapGet s.streams cameraID = none := (mapGet_eq_none_iff _ _).2 h
  simp [StopStream, hget, StreamError.kind]

/-- Witness of C3: stopping "B" when only "A" is registered. -/
theorem C3_stop_unknown_id_witness :
    "B" ∉ mapKeys stateA.streams ∧
    StopStream stateA "B" = (stateA, some (StreamError.notFound "B")) ∧
    (StreamError.notFound "B").kind = ErrorKind.NotFound :=
  ⟨by decide, C3_stop_unknown_id stateA "B" (by decide)⟩

/-- C4: in a well-formed state, `StopStream` of a registered id returns no
error; afterwards `GetStreamStatus` yields a map whose keys do not contain
the id and still contain every other id registered before; the token of
the stopped session is cancelled, one more `Close` has been called on its
capture handle (if the session has one), and the stopped session object
has a nil input pipe, a nil process handle and `published = false`. -/
theorem C4_stop_registered (s : State) (cameraID : String) (now : String → Time)
    (hwf : s.WF) (hreg : cameraID ∈ mapKeys s.streams) :
    ∃ p stream, mapGet s.streams cameraID = some p ∧ s.deref p = some stream ∧
      (StopStream s cameraID).2 = none ∧
      (∃ status, GetStreamStatus (StopStream s cameraID).1 now = some status ∧
        cameraID ∉ status.map Prod.fst ∧
        ∀ k ∈ mapKeys s.streams, k ≠ cameraID → k ∈ status.map Prod.fst) ∧
      (StopStream s cameraID).1.isDone stream.Context = true ∧
      (∀ c, stream.Capture = some c →
        captureCloses (StopStream s cameraID).1.trace c.id = captureCloses s.trace c.id + 1) ∧
      (∃ stream', (StopStream s cameraID).1.deref p = some stream' ∧
        stream'.ffmpegIn = none ∧ stream'.ffmpegCmd = none ∧ stream'.published = false) := by
  have hsome : (mapGet s.streams cameraID).isSome = true := (mapGet_isSome_iff _ _).2 hreg
  obtain ⟨p, hp⟩ := Option.isSome_iff_exists.mp hsome
  obtain ⟨stream, hd⟩ := deref_of_lt s (hwf.2 _ (mapGet_mem hp))
  obtain ⟨hres, hstreams, _, hlen, htrace, hderef⟩ :=
    StopStream_registered s cameraID p stream hp hd
  refine ⟨p, stream, hp, hd, hres, ?_, ?_, ?_, ?_⟩
  · have hvalid : ∀ e ∈ (StopStream s cameraID).1.streams,
        e.2 < (StopStream s cameraID).1.heap.length := by
      intro e he
      rw [hstreams] at he
      rw [hlen]
      exact hwf.2 e (List.mem_filter.mp he).1
    obtain ⟨status, hst, hkeys⟩ := statusEntries_keys (StopStream s cameraID).1 now _ hvalid
    refine ⟨status, hst, ?_, ?_⟩
    · rw [hkeys, hstreams, mem_mapKeys_mapDelete]
      exact fun h => h.2 rfl
    · intro k hk hne
      rw [hkeys, hstreams, mem_mapKeys_mapDelete]
      exact ⟨hk, hne⟩
  · simp [State.isDone, htrace]
  · intro c hc
    simp [captureCloses, htrace, hc, stopPublisherEvents_count_capClose, List.count_cons]
  · exact ⟨_, hderef, rfl, rfl, rfl⟩

/-- Witness of C4: stopping "A" when "A" and "B" are registered. -/
theorem C4_stop_registered_witness :
    stateAB.WF ∧ "A" ∈ mapKeys stateAB.streams ∧
    ∃ p stream, mapGet stateAB.streams "A" = some p ∧ stateAB.deref p = some stream ∧
      (StopStream stateAB "A").2 = none ∧
      (∃ status, GetStreamStatus (StopStream stateAB "A").1 (fun _ => 200) = some status ∧
        "A" ∉ status.map Prod.fst ∧
        ∀ k ∈ mapKeys stateAB.streams, k ≠ "A" → k ∈ status.map Prod.fst) ∧
      (StopStream stateAB "A").1.isDone stream.Context = true ∧
      (∀ c, stream.Capture = some c →
        captureCloses (StopStream stateAB "A").1.trace c.id =
          captureCloses stateAB.trace c.id + 1) ∧
      (∃ stream', (StopStream stateAB "A").1.deref p = some stream' ∧
        stream'.ffmpegIn = none ∧ stream'.ffmpegCmd = none ∧ stream'.published = false) :=
  ⟨by decide, by decide,
    C4_stop_registered stateAB "A" (fun _ => 200) (by decide) (by decide)⟩

/-- C5: for a session and detection frames handled at instants that a real
clock can show (at least 5 seconds after Go's zero time), with snapshot
creation succeeding, `handleFaceDetection` dispatches an alert for a frame
if and only if no alert was dispatched yet or at least 5 seconds have
elapsed since the last dispatched alert (the instants need not even be
non-decreasing); in particular, for a session that
has not alerted yet and detections at `t0`, `t0 + 1 s` and `t0 + 6 s`,
exactly the two alerts of `t0` and `t0 + 6 s` are dispatched. -/
theorem C5_alert_throttle (s : State) (p : Nat) (stream : CameraStream)
    (frames : List DetectionFrame) (t0 : Int)
    (hd : s.deref p = some stream)
    (hlate : ∀ f ∈ frames, 5 * Second ≤ f.t) :
    dispatchedAt (detectFrames s p frames).trace =
      dispatchedAt s.trace ++
        specThrottle (lastDispatched stream) (frames.map (fun f => f.t)) ∧
    (stream.LastAlert = 0 →
      frames.map (fun f => f.t) = [t0, t0 + 1 * Second, t0 + 6 * Second] →
      dispatchedAt (detectFrames s p frames).trace =
        dispatchedAt s.trace ++ [t0, t0 + 6 * Second]) := by
  have hgen := detectFrames_dispatched p frames s stream hd hlate
  refine ⟨hgen, ?_⟩
  intro hzero htimes
  rw [hgen, htimes]
  simp [lastDispatched, hzero, specThrottle, Second]

/-- Witness of C5: the session of camera "A" right after its start, with
detections at 10 s, 11 s and 16 s. -/
theorem C5_alert_throttle_witness :
    dispatchedAt (detectFrames stateA 0
        [⟨10 * Second, 1, "/snapshots/a.jpg"⟩, ⟨11 * Second, 2, "/snapshots/b.jpg"⟩,
         ⟨16 * Second, 1, "/snapshots/c.jpg"⟩]).trace =
      dispatchedAt stateA.trace ++ [10 * Second, 10 * Second + 6 * Second] :=
  (C5_alert_throttle stateA 0 sessionA
    [⟨10 * Second, 1, "/snapshots/a.jpg"⟩, ⟨11 * Second, 2, "/snapshots/b.jpg"⟩,
     ⟨16 * Second, 1, "/snapshots/c.jpg"⟩] (10 * Second) (by decide) (by decide)).2
    (by decide) (by decide)

/-- C6 (code evaluated at the failing input): camera "A" is registered and
its capture handle (identity 1) fails ten reads in a row.  `processStream`
returns because of too many consecutive errors and the handle has been
closed exactly once, but "A" is still a key of the registry and
`GetStreamStatus` still lists it. -/
theorem C6_self_termination_keeps_registry_entry :
    (processStream stateA 0 (List.replicate 10 ReadOutcome.failed)).2 =
      LoopStatus.tooManyErrors ∧
    captureCloses (processStream stateA 0 (List.replicate 10 ReadOutcome.failed)).1.trace 1 = 1 ∧
    "A" ∈ mapKeys (processStream stateA 0 (List.replicate 10 ReadOutcome.failed)).1.streams ∧
    (GetStreamStatus (processStream stateA 0 (List.replicate 10 ReadOutcome.failed)).1
      (fun _ => 200)).map (fun st => st.map Prod.fst) = some ["A"] := by
  decide

/-- C7 (code evaluated at the failing input): camera "A" is registered with
capture handle 1 and is stopped by `StopStream`; the frame loop then sees
the cancelled token and leaves.  `Close` has been called on the handle
twice: once by `StopStream` and once by the deferred function of
`processStream`. -/
theorem C7_stop_then_loop_exit_closes_twice :
    (StopStream stateA "A").2 = none ∧
    captureCloses (StopStream stateA "A").1.trace 1 = 1 ∧
    (processStream (StopStream stateA "A").1 0 []).2 = LoopStatus.cancelled ∧
    captureCloses (processStream (StopStream stateA "A").1 0 []).1.trace 1 = 2 := by
  decide

/-- C8: with `MaxStreams = 2` and an empty registry, for cameras A, B, C
with distinct ids and non-empty URLs whose sources open, `StartStream` of A
and of B succeed, `StartStream` of C then fails with the capacity error,
and after a successful `StopStream` of A `StartStream` of C succeeds; and
for every well-formed registry that is at capacity, after the successful
`StopStream` of a registered id a `StartStream` of an id that is not in the
registry succeeds (URL non-empty, source opening). -/
theorem C8_capacity_boundary (s : State) (A B C : Camera) (eA eB eC eC2 : StartEnv)
    (t : State) (cameraID : String) (camera : Camera) (env : StartEnv)
    (hempty : s.streams = []) (hmax : s.config.MaxStreams = 2)
    (hAB : A.ID ≠ B.ID) (hAC : A.ID ≠ C.ID) (hBC : B.ID ≠ C.ID)
    (hurlA : A.RTSPURL ≠ "") (hurlB : B.RTSPURL ≠ "") (hurlC : C.RTSPURL ≠ "")
    (hoA : SourceOpens eA.opens) (hoB : SourceOpens eB.opens) (hoC2 : SourceOpens eC2.opens)
    (hwf : t.WF)
    (hfull : (t.streams.length : Int) = t.config.MaxStreams)
    (hreg : cameraID ∈ mapKeys t.streams)
    (hnew : camera.ID ∉ mapKeys (StopStream t cameraID).1.streams)
    (hurl : camera.RTSPURL ≠ "")
    (hopen : SourceOpens env.opens) :
    ((StartStream s eA A).2 = none ∧
      (StartStream (StartStream s eA A).1 eB B).2 = none ∧
      StartStream (StartStream (StartStream s eA A).1 eB B).1 eC C =
        ((StartStream (StartStream s eA A).1 eB B).1, some (StreamError.maxStreams 2)) ∧
      (StopStream (StartStream (StartStream s eA A).1 eB B).1 A.ID).2 = none ∧
      (StartStream (StopStream (StartStream (StartStream s eA A).1 eB B).1 A.ID).1 eC2 C).2 =
        none) ∧
    ((StopStream t cameraID).2 = none ∧
      (StartStream (StopStream t cameraID).1 env camera).2 = none ∧
      camera.ID ∈ mapKeys (StartStream (StopStream t cameraID).1 env camera).1.streams) := by
  refine ⟨?_, stop_then_start t cameraID camera env hwf hfull hreg hnew hurl hopen⟩
  have hwf0 : s.WF := by
    unfold State.WF
    simp [hempty, mapKeys]
  -- start A
  obtain ⟨hA, hstrA, hcfgA, _⟩ := StartStream_ok s eA A
    (by rw [hmax, hempty]; decide) (by simp [hempty, mapKeys]) hurlA hoA
  have hwfA := StartStream_WF s eA A hwf0
  have hkeysA : mapKeys (StartStream s eA A).1.streams = [A.ID] := by
    rw [hstrA, hempty]; simp [mapSet, mapDelete, mapKeys]
  have hlenA : (StartStream s eA A).1.streams.length = 1 := by
    rw [hstrA, hempty]; simp [mapSet, mapDelete]
  -- start B
  have hnewB : B.ID ∉ mapKeys (StartStream s eA A).1.streams := by
    rw [hkeysA]; simpa using fun h => hAB h.symm
  obtain ⟨hB, hstrB, hcfgB, _⟩ := StartStream_ok (StartStream s eA A).1 eB B
    (by rw [hcfgA, hmax, hlenA]; decide) hnewB hurlB hoB
  have hwfB := StartStream_WF (StartStream s eA A).1 eB B hwfA
  have hlenB : (StartStream (StartStream s eA A).1 eB B).1.streams.length = 2 := by
    rw [hstrB, mapSet_length_of_not_mem _ hnewB, hlenA]
  have hcfgB' : (StartStream (StartStream s eA A).1 eB B).1.config.MaxStreams = 2 := by
    rw [hcfgB, hcfgA, hmax]
  have hkeysB : ∀ k, k ∈ mapKeys (StartStream (StartStream s eA A).1 eB B).1.streams ↔
      k = B.ID ∨ k = A.ID := by
    intro k
    rw [hstrB, mem_mapKeys_mapSet, hkeysA]
    constructor
    · rintro (h | ⟨h, _⟩)
      · exact Or.inl h
      · exact Or.inr (by simpa using h)
    · rintro (h | h)
      · exact Or.inl h
      · exact Or.inr ⟨by simpa using h, by rw [h]; exact hAB⟩
  -- start C at capacity
  have hC := StartStream_at_capacity (StartStream (StartStream s eA A).1 eB B).1 eC C
    (by rw [hcfgB', hlenB]; decide)
  rw [hcfgB'] at hC
  -- stop A, start C
  have hnewC : C.ID ∉ mapKeys
      (StopStream (StartStream (StartStream s eA A).1 eB B).1 A.ID).1.streams := by
    have hregA : A.ID ∈ mapKeys (StartStream (StartStream s eA A).1 eB B).1.streams :=
      (hkeysB _).2 (Or.inr rfl)
    have hsome := (mapGet_isSome_iff _ _).2 hregA
    obtain ⟨p, hp⟩ := Option.isSome_iff_exists.mp hsome
    obtain ⟨stream, hd⟩ := deref_of_lt _ (hwfB.2 _ (mapGet_mem hp))
    obtain ⟨_, hstreams, _⟩ := StopStream_registered _ A.ID p stream hp hd
    rw [hstreams, mem_mapKeys_mapDelete, hkeysB]
    rintro ⟨h | h, _⟩
    · exact hBC h.symm
    · exact hAC h.symm
  obtain ⟨hstop, hstart, _⟩ := stop_then_start (StartStream (StartStream s eA A).1 eB B).1
    A.ID C eC2 hwfB (by rw [hcfgB', hlenB]; rfl) ((hkeysB _).2 (Or.inr rfl)) hnewC hurlC hoC2
  exact ⟨hA, hB, hC, hstop, hstart⟩

/-- Witness of C8: cameras "A", "B", "C" on an empty manager of capacity 2,
and the same manager, full with "A" and "B", for the general part. -/
theorem C8_capacity_boundary_witness :
    ((StartStream (emptyState 2) envOk (cam "A")).2 = none ∧
      (StartStream (StartStream (emptyState 2) envOk (cam "A")).1 envOk (cam "B")).2 = none ∧
      StartStream (StartStream (StartStream (emptyState 2) envOk (cam "A")).1 envOk (cam "B")).1
          envOk (cam "C") =
        ((StartStream (StartStream (emptyState 2) envOk (cam "A")).1 envOk (cam "B")).1,
          some (StreamError.maxStreams 2)) ∧
      (StopStream (StartStream (StartStream (emptyState 2) envOk (cam "A")).1 envOk
        (cam "B")).1 (cam "A").ID).2 = none ∧
      (StartStream (StopStream (StartStream (StartStream (emptyState 2) envOk (cam "A")).1 envOk
        (cam "B")).1 (cam "A").ID).1 envOk (cam "C")).2 = none) ∧
    ((StopStream fullState2 "B").2 = none ∧
      (StartStream (StopStream fullState2 "B").1 envOk (cam "D")).2 = none ∧
      (cam "D").ID ∈ mapKeys (StartStream (StopStream fullState2 "B").1 envOk (cam "D")).1.streams) :=
  C8_capacity_boundary (emptyState 2) (cam "A") (cam "B") (cam "C") envOk envOk envOk envOk
    fullState2 "B" (cam "D") envOk rfl rfl (by decide) (by decide) (by decide) (by decide)
    (by decide) (by decide) ⟨0, by decide, rfl⟩ ⟨0, by decide, rfl⟩ ⟨0, by decide, rfl⟩
    (by decide) (by decide) (by decide) (by decide) (by decide) ⟨0, by decide, rfl⟩

/-- C9: for every session (publisher live, already stopped, never started,
or a nil session pointer), calling `stopPublisher` twice in a row gives
exactly the state that one call gives, so the second call changes no field
and makes no external call; `stopPublisher` has no failing path; and over
both calls every input pipe is closed at most once and every process is
waited on at most once. -/
theorem C9_stopPublisher_idempotent (s : State) (p : Nat) :
    stopPublisher (stopPublisher s p) p = stopPublisher s p ∧
    ∀ q : Nat,
      (stopPublisher (stopPublisher s p) p).trace.count (Event.pipeClose q) ≤
        s.trace.count (Event.pipeClose q) + 1 ∧
      (stopPublisher (stopPublisher s p) p).trace.count (Event.procWait q) ≤
        s.trace.count (Event.procWait q) + 1 := by
  refine ⟨stopPublisher_idem s p, fun q => ?_⟩
  rw [stopPublisher_idem]
  cases hd : s.deref p with
  | none => simp [stopPublisher, hd]
  | some stream =>
    rw [stopPublisher_trace s p stream hd, List.count_append, List.count_append]
    have := stopPublisherEvents_count_le stream q
    omega

/-- C10 (code evaluated at the failing input): the source of camera "A" is
unreachable and each of the three open calls returns an error together
with a handle (identities 1, 2, 3), as `gocv.VideoCaptureFile` does.
`StartStream` makes 3 attempts, fails with an error of the
SourceUnreachable class, registers nothing and cancels its token
(identity 0), but `Close` has been called on none of the three handles it
obtained. -/
theorem C10_handles_returned_with_error_never_closed :
    (StartStream (emptyState 4) envUnreachable (cam "A")).2 =
      some (StreamError.openFailedWith "A" "Error opening file") ∧
    (StreamError.openFailedWith "A" "Error opening file").kind = ErrorKind.SourceUnreachable ∧
    (StartStream (emptyState 4) envUnreachable (cam "A")).1.streams = [] ∧
    (StartStream (emptyState 4) envUnreachable (cam "A")).1.isDone 0 = true ∧
    openAttempts (StartStream (emptyState 4) envUnreachable (cam "A")).1.trace = 3 ∧
    handlesObtained (StartStream (emptyState 4) envUnreachable (cam "A")).1.trace = [1, 2, 3] ∧
    captureCloses (StartStream (emptyState 4) envUnreachable (cam "A")).1.trace 1 = 0 ∧
    captureCloses (StartStream (emptyState 4) envUnreachable (cam "A")).1.trace 2 = 0 ∧
    captureCloses (StartStream (emptyState 4) envUnreachable (cam "A")).1.trace 3 = 0 := by
  decide

/-- C11 (code evaluated at the failing input): cameras "A" and "B" are
registered, each with a live publisher.  The shutdown of `main` cancels both
tokens and closes both capture handles (identities 1 and 5) once, but it
makes no call that stops a publisher, both session objects still hold their
ffmpeg process and input pipe with `published = true`, and the registry
still holds both entries. -/
theorem C11_shutdown_leaves_publishers_and_registry :
    (shutdownStreams stateAB).isDone 0 = true ∧
    (shutdownStreams stateAB).isDone 4 = true ∧
    captureCloses (shutdownStreams stateAB).trace 1 = 1 ∧
    captureCloses (shutdownStreams stateAB).trace 5 = 1 ∧
    publisherStops (shutdownStreams stateAB).trace = 0 ∧
    ((shutdownStreams stateAB).deref 0).map (fun st => (st.ffmpegCmd, st.ffmpegIn, st.published)) =
      some (some 2, some 3, true) ∧
    ((shutdownStreams stateAB).deref 1).map (fun st => (st.ffmpegCmd, st.ffmpegIn, st.published)) =
      some (some 6, some 7, true) ∧
    mapKeys (shutdownStreams stateAB).streams = ["B", "A"] := by
  decide

/-- C12 (as stated, refuted): with capacity 1 and camera "A" registered,
`StartStream` of a camera "B" whose URL is empty is rejected by the capacity
check, which comes first, and the error is the capacity error, not the
URL-required error. -/
theorem C12_empty_url_capacity_error :
    (camNoURL "B").RTSPURL = "" ∧
    (StartStream (StartStream (emptyState 1) envOk (cam "A")).1 envOk (camNoURL "B")).2 =
      some (StreamError.maxStreams 1) ∧
    (StreamError.maxStreams 1).kind ≠ ErrorKind.InvalidSpec := by
  decide

/-- C12 (amended): for a camera whose source URL is empty `StartStream`
fails and returns the state exactly as it was, so it makes no open attempt,
allocates nothing and leaves the registry unchanged; the error is the
capacity error when the registry is at capacity, else the already-exists
error when the id is registered, and else the URL-required error, which is
of the InvalidSpec class. -/
theorem C12_empty_url_rejected (s : State) (env : StartEnv) (camera : Camera)
    (hurl : camera.RTSPURL = "") :
    StartStream s env camera =
      (s, some (if (s.streams.length : Int) ≥ s.config.MaxStreams then
                  StreamError.maxStreams s.config.MaxStreams
                else if camera.ID ∈ mapKeys s.streams then
                  StreamError.alreadyExists camera.ID
                else StreamError.urlRequired camera.ID)) ∧
    (StreamError.urlRequired camera.ID).kind = ErrorKind.InvalidSpec := by
  refine ⟨?_, rfl⟩
  unfold StartStream
  by_cases hcap : (s.streams.length : Int) ≥ s.config.MaxStreams
  · simp [hcap]
  · by_cases hmem : camera.ID ∈ mapKeys s.streams
    · have := (mapGet_isSome_iff s.streams camera.ID).2 hmem
      simp [hcap, hmem, this]
    · have hget := (mapGet_eq_none_iff s.streams camera.ID).2 hmem
      simp [hcap, hmem, hget, hurl]

/-- Witness of C12 (amended): a camera without URL on an empty manager of
capacity 4 is rejected with the URL-required error. -/
theorem C12_empty_url_rejected_witness :
    StartStream (emptyState 4) envOk (camNoURL "A") =
      (emptyState 4, some (StreamError.urlRequired "A")) :=
  (C12_empty_url_rejected (emptyState 4) envOk (camNoURL "A") rfl).1

/-- C13: for a live session (token not cancelled, capture handle present)
and every finite sequence of reads in which fewer than 10 failed reads
occur back-to-back, after every prefix of the sequence `processStream` is
still in its loop, its consecutive-error counter is the number of failed
reads at the end of the prefix (a failed read adds one, a successful frame
and an empty-but-successful read both set it to zero), and the frame
counter is its initial value plus the number of successful non-empty reads
of the prefix, so it never decreases; the int64 counter is assumed not to
overflow.  A failed read that makes ten in a row ends the loop. -/
theorem C13_frame_loop_counters (s : State) (p : Nat) (stream : CameraStream)
    (c : VideoCapture) (reads : List ReadOutcome)
    (hd : s.deref p = some stream) (hdone : s.isDone stream.Context = false)
    (hcap : stream.Capture = some c)
    (hrun : ∀ k, backToBackFailed (reads.take k) < maxConsecutiveErrors)
    (hlo : 0 ≤ stream.FrameCount)
    (hhi : stream.FrameCount + framesRead reads < 9223372036854775808) :
    (∀ k,
      (processStream s p (reads.take k)).2 =
        LoopStatus.running (backToBackFailed (reads.take k)) ∧
      frameCountOf (processStream s p (reads.take k)).1 p =
        some (stream.FrameCount + framesRead (reads.take k))) ∧
    (∀ j k, j ≤ k → ∃ a b,
      frameCountOf (processStream s p (reads.take j)).1 p = some a ∧
      frameCountOf (processStream s p (reads.take k)).1 p = some b ∧ a ≤ b) ∧
    (∀ pre : List ReadOutcome,
      backToBackFailed (pre ++ [ReadOutcome.failed]) = backToBackFailed pre + 1 ∧
      backToBackFailed (pre ++ [ReadOutcome.empty]) = 0 ∧
      ∀ f, backToBackFailed (pre ++ [ReadOutcome.frame f]) = 0) ∧
    (backToBackFailed reads + 1 = maxConsecutiveErrors →
      (processStream s p (reads ++ [ReadOutcome.failed])).2 = LoopStatus.tooManyErrors) := by
  have hpre : ∀ k,
      (processStream s p (reads.take k)).2 =
        LoopStatus.running (backToBackFailed (reads.take k)) ∧
      frameCountOf (processStream s p (reads.take k)).1 p =
        some (stream.FrameCount + framesRead (reads.take k)) := by
    intro k
    have hrunk : ∀ j, backToBackFailed ([] ++ (reads.take k).take j) < maxConsecutiveErrors := by
      intro j
      rw [List.nil_append, List.take_take]
      exact hrun _
    have hhik : stream.FrameCount + framesRead (reads.take k) < 9223372036854775808 := by
      have := framesRead_take_le reads k
      omega
    obtain ⟨s', stream', heq, h2, _, _, h5⟩ :=
      frameLoop_running p c (reads.take k) [] s stream hd hdone hcap hrunk hlo hhik
    simp only [List.nil_append, backToBackFailed_nil] at heq
    rw [processStream_of_running s s' p _ _ heq]
    exact ⟨rfl, by simp [frameCountOf, h2, h5]⟩
  refine ⟨hpre, ?_, ?_, ?_⟩
  · intro j k hjk
    refine ⟨_, _, (hpre j).2, (hpre k).2, ?_⟩
    have := framesRead_take_mono reads hjk
    omega
  · intro pre
    exact ⟨backToBackFailed_failed pre, backToBackFailed_empty pre,
      fun f => backToBackFailed_frame pre f⟩
  · exact processStream_tenth_failure s p stream c reads hd hdone hcap hrun hlo hhi

/-- Witness of C13: the session of camera "A" right after its start and the
reads failed, frame, empty, failed, failed, frame; after the first five
reads the loop is running. -/
theorem C13_frame_loop_counters_witness :
    (processStream stateA 0 (readsMixed.take 5)).2 =
      LoopStatus.running (backToBackFailed (readsMixed.take 5)) ∧
    frameCountOf (processStream stateA 0 (readsMixed.take 5)).1 0 =
      some (sessionA.FrameCount + framesRead (readsMixed.take 5)) :=
  (C13_frame_loop_counters stateA 0 sessionA { id := 1, opened := true } readsMixed
    (by decide) (by decide) rfl
    (fun k => lt_of_le_of_lt
      ((backToBackFailed_le_length _).trans (List.take_sublist k readsMixed).length_le)
      (show readsMixed.length < maxConsecutiveErrors by decide))
    (by decide) (by decide)).1 5

end FaceDash
